import Mathlib

/-!
# video-optimization: a verification development

A shallow embedding of the Go service `video-optimization`
(`internal/handlers`, `internal/middleware`, `internal/s3`) together with
theorems about its request handlers.

Conventions of the embedding.

* A Go `string` is a Lean `String`; Go's byte-indexed operations act here on
  characters.  Every delimiter the program looks at (`/`, `.`, `,`, `p`, `x`,
  the decimal digits, `+`, `-`) is ASCII, so on well-formed UTF-8 text the
  two views cut a string at the same places.
* A Go `map[string]string` is an association list read with `List.lookup`.
* The world outside the process (object store, ffmpeg, ffprobe, the clock,
  the uuid generator, `os.TempDir`) is an explicit argument: every external
  step receives the outcome the world chose for it.
* Handlers return the response together with the trace of external steps and
  the resulting set of files on disk.
-/

namespace VideoOptimization

/-! ## Go standard library: `strings`, `strconv` -/

/-- Go `strings.HasSuffix`: `len(s) >= len(suffix) && s[len(s)-len(suffix):] == suffix`. -/
def HasSuffix (s suffix : String) : Bool :=
  decide (suffix.data.length ≤ s.data.length) &&
    decide (s.data.drop (s.data.length - suffix.data.length) = suffix.data)

/-- Go `strings.TrimSuffix`: drops `suffix` from the end of `s` when it is there. -/
def TrimSuffix (s suffix : String) : String :=
  if HasSuffix s suffix then ⟨s.data.take (s.data.length - suffix.data.length)⟩ else s

/-- Go `strings.HasPrefix`: `len(s) >= len(p) && s[:len(p)] == p`. -/
def HasPrefix (s p : String) : Bool :=
  decide (p.data.length ≤ s.data.length) && decide (s.data.take p.data.length = p.data)

/-- Go `strings.TrimPrefix`: drops `p` from the start of `s` when it is there. -/
def TrimPrefix (s p : String) : String :=
  if HasPrefix s p then ⟨s.data.drop p.data.length⟩ else s

/-- Splits a character list at every occurrence of `sep`; the result is never empty. -/
def splitChars (sep : Char) : List Char → List (List Char)
  | [] => [[]]
  | c :: cs =>
    if c = sep then [] :: splitChars sep cs
    else
      match splitChars sep cs with
      | [] => [[c]]
      | p :: ps => (c :: p) :: ps

/-- Go `strings.Split(s, sep)` for a separator of one character. -/
def Split (s : String) (sep : Char) : List String :=
  (splitChars sep s.data).map String.mk

/-- Go `strings.Join(elems, sep)`. -/
def Join (elems : List String) (sep : String) : String :=
  sep.intercalate elems

/-- The characters Go's `unicode.IsSpace` accepts (Unicode White_Space). -/
def isSpace (c : Char) : Bool :=
  let n := c.toNat
  (9 ≤ n && n ≤ 13) || n = 32 || n = 0x85 || n = 0xA0 || n = 0x1680 ||
    (0x2000 ≤ n && n ≤ 0x200A) || n = 0x2028 || n = 0x2029 || n = 0x202F ||
    n = 0x205F || n = 0x3000

/-- Go `strings.TrimSpace`: removes leading and trailing white space. -/
def TrimSpace (s : String) : String :=
  ⟨((s.data.dropWhile isSpace).reverse.dropWhile isSpace).reverse⟩

/-- An ASCII decimal digit. -/
def isDigit (c : Char) : Bool :=
  decide (48 ≤ c.toNat) && decide (c.toNat ≤ 57)

/-- The number a list of decimal digits denotes (most significant digit first). -/
def digitsValue (ds : List Char) : Nat :=
  ds.foldl (fun n c => 10 * n + (c.toNat - 48)) 0

/-- The magnitude part of Go's `strconv.ParseInt(_, 10, _)`: one or more decimal
digits, nothing else. -/
def parseDigits (ds : List Char) : Option Nat :=
  if ds ≠ [] ∧ ds.all isDigit = true then some (digitsValue ds) else none

/-- The width of Go's `int` on the 64-bit platforms the service is built for. -/
def intSize : Nat := 64

/-- Go `strconv.Atoi`: an optional sign followed by one or more decimal digits, the
value within the range of `int`; `none` stands for the returned error (syntax or
range). -/
def Atoi (s : String) : Option Int :=
  match s.data with
  | [] => none
  | c :: ds =>
    if c = '-' then
      (parseDigits ds).bind fun n =>
        if n ≤ 2 ^ (intSize - 1) then some (-(n : Int)) else none
    else if c = '+' then
      (parseDigits ds).bind fun n =>
        if n < 2 ^ (intSize - 1) then some (n : Int) else none
    else
      (parseDigits (c :: ds)).bind fun n =>
        if n < 2 ^ (intSize - 1) then some (n : Int) else none

/-! ## Go standard library: `path/filepath` (Unix) -/

/-- Go `filepath.Base`: the last element of the path, trailing slashes removed;
`"."` for the empty path and `"/"` for a path of slashes only. -/
def filepathBase (path : String) : String :=
  if path.data = [] then "."
  else
    let stripped := (path.data.reverse.dropWhile (fun c => c = '/')).reverse
    let last := (stripped.reverse.takeWhile (fun c => c ≠ '/')).reverse
    if last = [] then "/" else ⟨last⟩

/-- The backward scan of Go `filepath.Ext`: `rev` is what is left of the path, read
from its end, `acc` the characters already passed. -/
def extScan : List Char → List Char → List Char
  | [], _ => []
  | c :: rev, acc =>
    if c = '/' then []
    else if c = '.' then '.' :: acc
    else extScan rev (c :: acc)

/-- Go `filepath.Ext`: the suffix beginning at the final dot of the final element,
empty when there is no dot. -/
def filepathExt (path : String) : String :=
  ⟨extScan path.data.reverse []⟩

/-- The write index after Go `filepath.Clean` backs up over one element: starting
from `w`, move left while `w > dotdot` and `out[w]` is not a separator. -/
def cleanBacktrack (out : List Char) (dotdot : Nat) : Nat → Nat
  | 0 => 0
  | w + 1 =>
    if dotdot < w + 1 ∧ out.getD (w + 1) ' ' ≠ '/' then cleanBacktrack out dotdot w
    else w + 1

/-- One round of the main loop of Go `filepath.Clean`, for the path element `e` (a
maximal run without separator; empty runs stand for the separators skipped).
The state is the output written so far and the index `dotdot`. -/
def cleanElem (rooted : Bool) (st : List Char × Nat) (e : List Char) : List Char × Nat :=
  let out := st.1
  let dotdot := st.2
  if e = [] then st
  else if e = ['.'] then st
  else if e = ['.', '.'] then
    if dotdot < out.length then
      (out.take (cleanBacktrack out dotdot (out.length - 1)), dotdot)
    else if !rooted then
      let out1 := (if 0 < out.length then out ++ ['/'] else out) ++ ['.', '.']
      (out1, out1.length)
    else st
  else
    let out1 :=
      if (rooted && out.length != 1) || (!rooted && out.length != 0) then out ++ ['/']
      else out
    (out1 ++ e, dotdot)

/-- Go `filepath.Clean` on Unix. -/
def filepathClean (path : String) : String :=
  if path.data = [] then "."
  else
    let rooted := decide (path.data.head? = some '/')
    let start : List Char × Nat := if rooted then (['/'], 1) else ([], 0)
    let out := ((splitChars '/' (if rooted then path.data.tail else path.data)).foldl
      (cleanElem rooted) start).1
    if out = [] then "." else ⟨out⟩

/-- Go `filepath.Join`: the non-empty tail of `elem` joined with `/` and cleaned;
empty when every element is empty. -/
def filepathJoin (elem : List String) : String :=
  match elem.dropWhile (fun e => e = "") with
  | [] => ""
  | rest => filepathClean (Join rest "/")

/-! ## `internal/handlers/optimize.go`: pure helpers -/

/-- Source: `resolutionToScale` (optimize.go). -/
def resolutionToScale (res : String) : String × Bool :=
  if HasSuffix res "p" then
    let numStr := TrimSuffix res "p"
    match Atoi numStr with
    | some _ => ("-1:" ++ numStr, true)
    | none => ("", false)
  else ("", false)

/-- Source: `getFilename` (optimize.go, thumnail.go): the name without its extension. -/
def getFilename (filename : String) : String :=
  ⟨filename.data.take (filename.data.length - (filepathExt filename).data.length)⟩

/-! ## The world outside the process -/

/-- An external step a handler performs, with the arguments it passes. -/
inductive Step where
  | download (key filePath : String)
  | ffmpeg (args : List String)
  | upload (filePath key contentType : String)
  | stat (filePath : String)
  | ffprobe (filePath : String)
  | decodeImage (filePath : String)
  | deleteObject (key : String)
deriving DecidableEq, Repr

/-- What the world does with one call of `s3.Download`: the error, if any, of
`GetObject`, the cause, if any, for which `os.Create` fails (the text after the path
in its error), and the error, if any, of `io.Copy`. -/
structure DownloadRun where
  getObject : Option String
  create : Option String
  copy : Option String
deriving DecidableEq, Repr

/-- What the world does with one call of `runCommand`: the error of
`cmd.CombinedOutput()` (`none` for exit status 0), the captured output, and whether
the command left its output file on disk. -/
structure CommandRun where
  err : Option String
  output : String
  wroteOutput : Bool
deriving DecidableEq, Repr

/-- What the world does with one call of `s3.Upload`: the cause, if any, for which
`os.Open` fails (the text after the path in its error, such as
`no such file or directory`), and the error, if any, of `PutObject`. -/
structure UploadRun where
  osOpen : Option String
  putObject : Option String
deriving DecidableEq, Repr

/-- The files on disk, as the list of their paths. -/
abbrev Files := List String

/-- The file at `path` exists afterwards. -/
def Files.create (fs : Files) (path : String) : Files :=
  if path ∈ fs then fs else path :: fs

/-- Go `os.Remove` of a file, taken to succeed: no file at `path` afterwards. -/
def Files.remove (fs : Files) (path : String) : Files :=
  fs.filter (fun q => q ≠ path)

/-- An HTTP response: `http.Error(w, message, status)`, or status 200 with the JSON
encoding of `body`. -/
inductive Response (α : Type) where
  | error (status : Nat) (message : String)
  | ok (body : α)
deriving DecidableEq, Repr

/-- The status code of a response. -/
def Response.status {α : Type} : Response α → Nat
  | .error status _ => status
  | .ok _ => 200

/-- One run of a handler: the response, the external steps performed in order, the
paths the deferred `os.Remove` calls removed in order, and the files on disk when
the handler returns. -/
structure Run (α : Type) where
  response : Response α
  trace : List Step
  removed : List String
  files : Files
deriving DecidableEq, Repr

/-- The handler returns: the deferred removals run, last registered first.
`defers` lists the registered paths, the most recent at the head. -/
def Run.finish {α : Type} (defers : List String) (trace : List Step) (fs : Files)
    (response : Response α) : Run α :=
  { response := response
    trace := trace
    removed := defers
    files := defers.foldl Files.remove fs }

/-! ## `internal/s3/s3.go` -/

/-- Go `(*fs.PathError).Error`, the text of the error of `os.Create`, `os.Open` and
`os.Stat`: the operation, the path it was given, and the cause. -/
def PathError (op path cause : String) : String :=
  op ++ " " ++ path ++ ": " ++ cause

/-- Source: `s3.Download`.  Returns the files on disk afterwards and the error. -/
def Download (d : DownloadRun) (filePath : String) (fs : Files) : Files × Option String :=
  match d.getObject with
  | some e => (fs, some ("failed to get object from S3: " ++ e))
  | none =>
    match d.create with
    | some e => (fs, some ("error creating file: " ++ PathError "open" filePath e))
    | none =>
      match d.copy with
      | some e => (fs.create filePath, some ("error saving file: " ++ e))
      | none => (fs.create filePath, none)

/-- Source: `s3.Upload`.  Returns the error (the URL the caller discards is left out). -/
def Upload (u : UploadRun) (filePath : String) : Option String :=
  match u.osOpen with
  | some e => some ("failed to open file for upload: " ++ PathError "open" filePath e)
  | none =>
    match u.putObject with
    | some e => some ("failed to upload file to S3: " ++ e)
    | none => none

/-- Source: `s3.Delete`, given the error, if any, of `DeleteObject`. -/
def s3Delete (deleteObject : Option String) : Option String :=
  match deleteObject with
  | some e => some ("failed to delete object from S3: " ++ e)
  | none => none

/-! ## `internal/handlers/optimize.go` and `thumnail.go` -/

/-- Source: `runCommand`.  The command is ffmpeg, whose output file is its last
argument.  Returns the files on disk afterwards and the error. -/
def runCommand (c : CommandRun) (name : String) (args : List String) (fs : Files) :
    Files × Option String :=
  let fs1 := if c.wroteOutput then fs.create (args.getLastD "") else fs
  match c.err with
  | some e => (fs1, some ("command " ++ name ++ " failed: " ++ e))
  | none => (fs1, none)

/-- The parsing half of `getVideoDimensions` (optimize.go), applied to the output of
ffprobe: width, height and the error.  Of the two parse errors only the part the
function adds is kept; the text of the `strconv` error it wraps, which the caller
only logs, is left out. -/
def parseVideoDimensions (output : String) : Int × Int × Option String :=
  let dims := TrimSpace output
  match Split dims 'x' with
  | [p0, p1] =>
    match Atoi p0 with
    | none => (0, 0, some "failed to parse width")
    | some width =>
      match Atoi p1 with
      | none => (0, 0, some "failed to parse height")
      | some height => (width, height, none)
  | _ => (0, 0, some ("unexpected dimensions format: " ++ dims))

/-- Source: `getVideoDimensions`, given what `cmd.Output()` of ffprobe returned. -/
def getVideoDimensions (probe : Except String String) : Int × Int × Option String :=
  match probe with
  | .error e => (0, 0, some ("failed to get video dimensions: " ++ e))
  | .ok output => parseVideoDimensions output

/-- Source: `getImageDimensions`, given what opening the file and
`image.DecodeConfig` returned. -/
def getImageDimensions (decoded : Except String (Int × Int)) : Int × Int × Option String :=
  match decoded with
  | .error e => (0, 0, some e)
  | .ok (width, height) => (width, height, none)

structure OptimizeRequest where
  Filename : String
  Options : List (String × String)
deriving DecidableEq, Repr

structure OptimizedVideo where
  Filename : String
  Filesize : Int
  Height : Int
  Width : Int
  MimeType : String
deriving DecidableEq, Repr

structure Thumbnail where
  Filename : String
  Filesize : Int
  Height : Int
  Width : Int
  MimeType : String
deriving DecidableEq, Repr

structure OptimizeResponse where
  OptimizedVideo : OptimizedVideo
  Thumbnail : Thumbnail
deriving DecidableEq, Repr

/-- Everything outside `Optimize` during one run: the temp directory, the generated
uuid and the outcome of each external step, should the run reach it.  A failing
`os.Stat` is given by its cause, the text after the path in its error. -/
structure OptimizeWorld where
  tempDir : String
  suffix : String
  download : DownloadRun
  transcode : CommandRun
  thumbnail : CommandRun
  convertThumbnail : CommandRun
  uploadVideo : UploadRun
  uploadThumbnail : UploadRun
  statVideo : Except String Int
  probeVideo : Except String String
  statThumbnail : Except String Int
  decodeThumbnail : Except String (Int × Int)

/-- The `format` of `Optimize`: `options["format"]` when present and non-empty,
otherwise `"webm"`. -/
def Optimize.format (req : OptimizeRequest) : String :=
  match req.Options.lookup "format" with
  | some f => if f ≠ "" then f else "webm"
  | none => "webm"

/-- The local `filename` of `Optimize`: the base name of the request without its extension. -/
def Optimize.filename (req : OptimizeRequest) : String :=
  getFilename (filepathBase req.Filename)

/-- The local `inputPath` of `Optimize`. -/
def Optimize.inputPath (w : OptimizeWorld) (req : OptimizeRequest) : String :=
  filepathJoin [w.tempDir, filepathBase req.Filename]

/-- The local `optimizedFileName` of `Optimize`. -/
def Optimize.optimizedFileName (w : OptimizeWorld) (req : OptimizeRequest) : String :=
  Optimize.filename req ++ "_" ++ w.suffix ++ "." ++ Optimize.format req

/-- The local `optimizedPath` of `Optimize`. -/
def Optimize.optimizedPath (w : OptimizeWorld) (req : OptimizeRequest) : String :=
  filepathJoin [w.tempDir, Optimize.optimizedFileName w req]

/-- The local `thumbnailFileName` of `Optimize`. -/
def Optimize.thumbnailFileName (w : OptimizeWorld) (req : OptimizeRequest) : String :=
  Optimize.filename req ++ "_" ++ w.suffix ++ "_thumbnail.png"

/-- The local `thumbnailPath` of `Optimize`. -/
def Optimize.thumbnailPath (w : OptimizeWorld) (req : OptimizeRequest) : String :=
  filepathJoin [w.tempDir, Optimize.thumbnailFileName w req]

/-- The local `convertedThumbnailFileName` of `Optimize`. -/
def Optimize.convertedThumbnailFileName (w : OptimizeWorld) (req : OptimizeRequest) : String :=
  Optimize.filename req ++ "_" ++ w.suffix ++ "_thumbnail_converted.png"

/-- The local `convertedThumbnailPath` of `Optimize`. -/
def Optimize.convertedThumbnailPath (w : OptimizeWorld) (req : OptimizeRequest) : String :=
  filepathJoin [w.tempDir, Optimize.convertedThumbnailFileName w req]

/-- The local `args` of `Optimize`: the arguments of the transcoding command. -/
def Optimize.args (req : OptimizeRequest) (inputPath optimizedPath : String) : List String :=
  let args := ["-i", inputPath]
  let args :=
    match req.Options.lookup "resolution" with
    | some res =>
      if res ≠ "" then
        if (resolutionToScale res).2 then args ++ ["-vf", "scale=" ++ (resolutionToScale res).1]
        else args
      else args
    | none => args
  args ++ ["-c:v", "libvpx-vp9", "-crf", "30", "-b:v", "1M", "-c:a", "libopus",
    "-b:a", "128k", "-y", optimizedPath]

/-- The local `thumbArgs` of `Optimize` and of `Thumbnail`. -/
def thumbArgs (inputPath thumbnailPath : String) : List String :=
  ["-i", inputPath, "-ss", "00:00:01", "-vframes", "1", "-y", thumbnailPath]

/-- The local `convertArgs` of `Optimize`. -/
def convertArgs (thumbnailPath convertedThumbnailPath : String) : List String :=
  ["-i", thumbnailPath, "-y", convertedThumbnailPath]

/-- Source: `Optimize` from the probes on (optimize.go, from `os.Stat(optimizedPath)`
to the response).  `defers` and `trace` are those of the run so far. -/
def Optimize.describe (w : OptimizeWorld) (req : OptimizeRequest) (defers : List String)
    (trace : List Step) (fs : Files) : Run OptimizeResponse :=
  let optimizedPath := Optimize.optimizedPath w req
  let convertedThumbnailPath := Optimize.convertedThumbnailPath w req
  let trace := trace ++ [Step.stat optimizedPath]
  match w.statVideo with
  | .error e =>
    Run.finish defers trace fs
      (.error 500 ("failed to get video file info: " ++ PathError "stat" optimizedPath e))
  | .ok videoFilesize =>
    let trace := trace ++ [Step.ffprobe optimizedPath]
    let videoDims := getVideoDimensions w.probeVideo
    let videoWidth := if videoDims.2.2.isSome then 0 else videoDims.1
    let videoHeight := if videoDims.2.2.isSome then 0 else videoDims.2.1
    let trace := trace ++ [Step.stat convertedThumbnailPath]
    match w.statThumbnail with
    | .error e =>
      Run.finish defers trace fs
        (.error 500
          ("failed to get thumbnail file info: " ++ PathError "stat" convertedThumbnailPath e))
    | .ok thumbFilesize =>
      let trace := trace ++ [Step.decodeImage convertedThumbnailPath]
      let thumbDims := getImageDimensions w.decodeThumbnail
      let thumbWidth := if thumbDims.2.2.isSome then 0 else thumbDims.1
      let thumbHeight := if thumbDims.2.2.isSome then 0 else thumbDims.2.1
      Run.finish defers trace fs (.ok
        { OptimizedVideo :=
            { Filename := Optimize.optimizedFileName w req
              Filesize := videoFilesize
              Height := videoHeight
              Width := videoWidth
              MimeType := "video/" ++ Optimize.format req }
          Thumbnail :=
            { Filename := Optimize.convertedThumbnailFileName w req
              Filesize := thumbFilesize
              Height := thumbHeight
              Width := thumbWidth
              MimeType := "image/png" } })

/-- Source: `Optimize` from the uploads on (optimize.go, from the first `s3.Upload`). -/
def Optimize.deliver (w : OptimizeWorld) (req : OptimizeRequest) (defers : List String)
    (trace : List Step) (fs : Files) : Run OptimizeResponse :=
  let format := Optimize.format req
  let trace := trace ++
    [Step.upload (Optimize.optimizedPath w req) (Optimize.optimizedFileName w req)
      ("video/" ++ format)]
  match Upload w.uploadVideo (Optimize.optimizedPath w req) with
  | some e => Run.finish defers trace fs (.error 500 ("failed to upload video: " ++ e))
  | none =>
    let trace := trace ++
      [Step.upload (Optimize.convertedThumbnailPath w req)
        (Optimize.convertedThumbnailFileName w req) "image/png"]
    match Upload w.uploadThumbnail (Optimize.convertedThumbnailPath w req) with
    | some e => Run.finish defers trace fs (.error 500 ("failed to upload thumbnail: " ++ e))
    | none => Optimize.describe w req defers trace fs

/-- Source: `Optimize` (optimize.go).  `body` is what decoding the request body gave:
the decoding error or the request. -/
def Optimize (w : OptimizeWorld) (fs : Files) (body : Except String OptimizeRequest) :
    Run OptimizeResponse :=
  match body with
  | .error e => Run.finish [] [] fs (.error 400 ("invalid JSON: " ++ e))
  | .ok req =>
    if req.Filename = "" then Run.finish [] [] fs (.error 400 "filename is required")
    else
      let reqFilename := filepathBase req.Filename
      let inputPath := Optimize.inputPath w req
      let optimizedPath := Optimize.optimizedPath w req
      let thumbnailPath := Optimize.thumbnailPath w req
      let convertedThumbnailPath := Optimize.convertedThumbnailPath w req
      let trace := [Step.download reqFilename inputPath]
      match Download w.download inputPath fs with
      | (fs, some e) =>
        Run.finish [] trace fs
          (.error 500 ("failed to download \"" ++ reqFilename ++ "\" from S3: " ++ e))
      | (fs, none) =>
        let defers := [inputPath]
        let args := Optimize.args req inputPath optimizedPath
        let trace := trace ++ [Step.ffmpeg args]
        match runCommand w.transcode "ffmpeg" args fs with
        | (fs, some e) =>
          Run.finish defers trace fs (.error 500 ("video optimization failed: " ++ e))
        | (fs, none) =>
          let defers := optimizedPath :: defers
          let trace := trace ++ [Step.ffmpeg (thumbArgs inputPath thumbnailPath)]
          match runCommand w.thumbnail "ffmpeg" (thumbArgs inputPath thumbnailPath) fs with
          | (fs, some e) =>
            Run.finish defers trace fs (.error 500 ("thumbnail generation failed: " ++ e))
          | (fs, none) =>
            let defers := thumbnailPath :: defers
            let trace := trace ++
              [Step.ffmpeg (convertArgs thumbnailPath convertedThumbnailPath)]
            match runCommand w.convertThumbnail "ffmpeg"
                (convertArgs thumbnailPath convertedThumbnailPath) fs with
            | (fs, some e) =>
              Run.finish defers trace fs (.error 500 ("thumbnail conversion failed: " ++ e))
            | (fs, none) =>
              Optimize.deliver w req (convertedThumbnailPath :: defers) trace fs

/-! ### `thumnail.go` -/

structure ThumbnailRequest where
  Filename : String
deriving DecidableEq, Repr

structure ThumbnailResponse where
  Filename : String
  Filesize : Int
  Height : Int
  Width : Int
  MimeType : String
deriving DecidableEq, Repr

/-- Everything outside the handler `Thumbnail` during one run; a failing `os.Stat` is
given by its cause, as in `OptimizeWorld`. -/
structure ThumbnailWorld where
  tempDir : String
  download : DownloadRun
  thumbnail : CommandRun
  upload : UploadRun
  stat : Except String Int
  decode : Except String (Int × Int)

/-- The local `inputPath` of the handler `Thumbnail`. -/
def ThumbnailHandler.inputPath (w : ThumbnailWorld) (req : ThumbnailRequest) : String :=
  filepathJoin [w.tempDir, filepathBase req.Filename]

/-- The local `thumbnailFileName` of the handler `Thumbnail`. -/
def ThumbnailHandler.thumbnailFileName (req : ThumbnailRequest) : String :=
  getFilename (filepathBase req.Filename) ++ "_thumbnail.png"

/-- The local `thumbnailPath` of the handler `Thumbnail`. -/
def ThumbnailHandler.thumbnailPath (w : ThumbnailWorld) (req : ThumbnailRequest) : String :=
  filepathJoin [w.tempDir, ThumbnailHandler.thumbnailFileName req]

/-- Source: the handler `Thumbnail` (thumnail.go); it is named `ThumbnailHandler` here
because the response type of optimize.go is called `Thumbnail` too. -/
def ThumbnailHandler (w : ThumbnailWorld) (fs : Files) (body : Except String ThumbnailRequest) :
    Run ThumbnailResponse :=
  match body with
  | .error e => Run.finish [] [] fs (.error 400 ("invalid JSON: " ++ e))
  | .ok req =>
    if req.Filename = "" then Run.finish [] [] fs (.error 400 "filename is required")
    else
      let baseFilename := filepathBase req.Filename
      let inputPath := ThumbnailHandler.inputPath w req
      let thumbnailFileName := ThumbnailHandler.thumbnailFileName req
      let thumbnailPath := ThumbnailHandler.thumbnailPath w req
      let trace := [Step.download baseFilename inputPath]
      match Download w.download inputPath fs with
      | (fs, some e) =>
        Run.finish [] trace fs
          (.error 500 ("failed to download \"" ++ req.Filename ++ "\" from S3: " ++ e))
      | (fs, none) =>
        let defers := [inputPath]
        let trace := trace ++ [Step.ffmpeg (thumbArgs inputPath thumbnailPath)]
        match runCommand w.thumbnail "ffmpeg" (thumbArgs inputPath thumbnailPath) fs with
        | (fs, some e) =>
          Run.finish defers trace fs (.error 500 ("thumbnail generation failed: " ++ e))
        | (fs, none) =>
          let defers := thumbnailPath :: defers
          let trace := trace ++ [Step.upload thumbnailPath thumbnailFileName "image/png"]
          match Upload w.upload thumbnailPath with
          | some e =>
            Run.finish defers trace fs (.error 500 ("failed to upload thumbnail: " ++ e))
          | none =>
            let trace := trace ++ [Step.stat thumbnailPath]
            match w.stat with
            | .error e =>
              Run.finish defers trace fs
                (.error 500
                  ("failed to get thumbnail file info: " ++ PathError "stat" thumbnailPath e))
            | .ok thumbFilesize =>
              let trace := trace ++ [Step.decodeImage thumbnailPath]
              let thumbDims := getImageDimensions w.decode
              let thumbWidth := if thumbDims.2.2.isSome then 0 else thumbDims.1
              let thumbHeight := if thumbDims.2.2.isSome then 0 else thumbDims.2.1
              Run.finish defers trace fs (.ok
                { Filename := thumbnailFileName
                  Filesize := thumbFilesize
                  Height := thumbHeight
                  Width := thumbWidth
                  MimeType := "image/png" })

/-! ## `internal/handlers/delete.go` -/

structure DeleteRequest where
  Filenames : List String
deriving DecidableEq, Repr

structure DeleteResponse where
  Message : String
deriving DecidableEq, Repr

/-- One run of `Delete`: the response, the store deletions attempted in order, and
the keys whose deletion succeeded in order. -/
structure DeleteRun where
  response : Response DeleteResponse
  trace : List Step
  deleted : List String
deriving DecidableEq, Repr

/-- The loop of `Delete` over the filenames still to go.  `deleteObject i` is what the
store answers to the deletion issued for the filename at index `i`: the error, or
`none` when the object is deleted. -/
def Delete.loop (deleteObject : Nat → Option String) :
    Nat → List Step → List String → List String → DeleteRun
  | _, trace, deleted, [] =>
    { response := .ok { Message := "Files deleted" }, trace := trace, deleted := deleted }
  | i, trace, deleted, filename :: rest =>
    match s3Delete (deleteObject i) with
    | some _ =>
      { response := .error 500 "failed to delete object"
        trace := trace ++ [Step.deleteObject filename]
        deleted := deleted }
    | none =>
      Delete.loop deleteObject (i + 1) (trace ++ [Step.deleteObject filename])
        (deleted ++ [filename]) rest

/-- Source: `Delete` (delete.go). -/
def Delete (deleteObject : Nat → Option String) (body : Except String DeleteRequest) :
    DeleteRun :=
  match body with
  | .error _ => { response := .error 400 "invalid JSON payload", trace := [], deleted := [] }
  | .ok req =>
    if req.Filenames.length = 0 then
      { response := .error 400 "at least one filename is required", trace := [], deleted := [] }
    else Delete.loop deleteObject 0 [] [] req.Filenames

/-! ## `internal/middleware/middleware.go` -/

/-- The part of an `http.Request` the middleware reads: the headers (canonical name
and first value) and the remote address. -/
structure Request where
  Header : List (String × String)
  RemoteAddr : String
deriving DecidableEq, Repr

/-- Go `r.Header.Get(key)`: the first value of the header, empty when it is absent. -/
def Request.HeaderGet (r : Request) (key : String) : String :=
  (r.Header.lookup key).getD ""

/-- What a middleware does with a request: it calls the wrapped handler, whose
result is `result`, or it answers itself with `http.Error(w, message, status)`. -/
inductive Served (α : Type) where
  | next (result : α)
  | rejected (status : Nat) (message : String)
deriving DecidableEq, Repr

/-- Go `subtle.ConstantTimeCompare`: 1 when the two slices have the same length and
the same contents, 0 otherwise; the contents are compared by or-ing the xor of
the elements at each index. -/
def ConstantTimeCompare (x y : List Char) : Nat :=
  if x.length ≠ y.length then 0
  else
    let v := (List.zipWith (fun a b => a.toNat ^^^ b.toNat) x y).foldl (fun v d => v ||| d) 0
    if v = 0 then 1 else 0

/-- Source: `Auth` (middleware.go).  `apiKey` is `env.VideoOptimizationApiKey`. -/
def Auth {α : Type} (apiKey : String) (next : Request → α) (r : Request) : Served α :=
  let authHeader := r.HeaderGet "Authorization"
  if HasPrefix authHeader "API-Key " then
    let key := TrimPrefix authHeader "API-Key "
    if ConstantTimeCompare key.data apiKey.data = 1 then .next (next r)
    else .rejected 401 "Unauthorized"
  else .rejected 401 "Unauthorized"

/-- A limiter of `golang.org/x/time/rate` built by `NewLimiter(rate.Every(interval), burst)`.
Times and durations are in nanoseconds.  The library keeps `tokens` as a float64; here
`credit` is `tokens` times `interval`, the time the tokens in the bucket are worth, so
that the arithmetic is exact: one token costs `interval`, and `elapsed` nanoseconds
refill `elapsed` of credit.  The rounding of float64 is not modelled: the model
stands for the library when the tokens and the seconds elapsed are whole numbers,
as in the lemmas below, where float64 is exact. -/
structure Limiter where
  interval : Int
  burst : Int
  credit : Int
  last : Int
deriving DecidableEq, Repr

/-- Go `time.Second` in nanoseconds. -/
def Second : Int := 1000000000

/-- Library `rate.NewLimiter(rate.Every(interval), burst)`: the bucket starts full. -/
def NewLimiter (interval burst : Int) : Limiter :=
  { interval := interval, burst := burst, credit := burst * interval, last := 0 }

/-- Library `(*Limiter).advance`: the credit at time `t`, refilled for the time elapsed
since `last` and capped at the burst. -/
def Limiter.advance (lim : Limiter) (t : Int) : Int :=
  let last := if t < lim.last then t else lim.last
  let elapsed := t - last
  let credit := lim.credit + elapsed
  if lim.burst * lim.interval < credit then lim.burst * lim.interval else credit

/-- Library `(*Limiter).Allow()` at time `now` (`reserveN(now, 1, 0)`): whether one
token is granted, and the limiter afterwards (unchanged when the token is refused). -/
def Limiter.Allow (lim : Limiter) (now : Int) : Bool × Limiter :=
  let credit := lim.advance now - lim.interval
  let waitDuration := if credit < 0 then -credit else 0
  if 1 ≤ lim.burst ∧ waitDuration ≤ 0 then
    (true, { lim with last := now, credit := credit })
  else (false, lim)

/-- The package variable `visitors`, a `map[string]*rate.Limiter`. -/
abbrev Visitors := List (String × Limiter)

/-- The limiter `visitors[ip]` points to becomes `lim`. -/
def Visitors.set (visitors : Visitors) (ip : String) (lim : Limiter) : Visitors :=
  visitors.map fun e => if e.1 = ip then (ip, lim) else e

/-- Source: `getVisitor` (middleware.go): the limiter of `ip`, created on first sight,
and the map afterwards. -/
def getVisitor (visitors : Visitors) (ip : String) : Limiter × Visitors :=
  match visitors.lookup ip with
  | some limiter => (limiter, visitors)
  | none =>
    let limiter := NewLimiter Second 5
    (limiter, (ip, limiter) :: visitors)

/-- The local `ip` of `RateLimit`: the client key of the request. -/
def RateLimit.ip (r : Request) : String :=
  let forwarded := r.HeaderGet "X-Forwarded-For"
  if forwarded ≠ "" then (Split forwarded ',').headD "" else r.RemoteAddr

/-- Source: `RateLimit` (middleware.go), for a request arriving at time `now`: what is
served, and the map of limiters afterwards. -/
def RateLimit {α : Type} (next : Request → α) (visitors : Visitors) (now : Int) (r : Request) :
    Served α × Visitors :=
  let ip := RateLimit.ip r
  let (limiter, visitors) := getVisitor visitors ip
  let (ok, limiter) := limiter.Allow now
  let visitors := visitors.set ip limiter
  if !ok then (.rejected 429 "Too Many Requests", visitors)
  else (.next (next r), visitors)

/-- Requests served one after the other by `RateLimit`, each with its arrival time:
the answers in order and the map of limiters at the end. -/
def RateLimit.serve {α : Type} (next : Request → α) :
    Visitors → List (Int × Request) → List (Served α) × Visitors
  | visitors, [] => ([], visitors)
  | visitors, (now, r) :: rest =>
    let (s, visitors) := RateLimit next visitors now r
    let (ss, visitors) := RateLimit.serve next visitors rest
    (s :: ss, visitors)

/-! ## The uuid of `Optimize` -/

/-- A lower-case hexadecimal digit. -/
def isHexDigit (c : Char) : Bool :=
  (decide (48 ≤ c.toNat) && decide (c.toNat ≤ 57)) ||
    (decide (97 ≤ c.toNat) && decide (c.toNat ≤ 102))

/-- The strings `uuid.NewString()` returns: 36 characters, hyphens at the indices 8,
13, 18 and 23, lower-case hexadecimal digits elsewhere. -/
def isUUIDString (s : String) : Bool :=
  decide (s.data.length = 36) &&
    s.data.enum.all fun (i, c) =>
      if i = 8 ∨ i = 13 ∨ i = 18 ∨ i = 23 then decide (c = '-') else isHexDigit c

/-- The path is a direct child of the directory `dir`: `dir`, a separator, and one
element that is neither `.` nor `..`. -/
def isDirectChild (dir path : String) : Bool :=
  HasPrefix path (dir ++ "/") &&
    (let name := (TrimPrefix path (dir ++ "/")).data
     decide (name ≠ []) && !name.contains '/' && decide (name ≠ ['.']) &&
       decide (name ≠ ['.', '.']))

/-! ## The order of the steps of `Optimize` -/

/-- The step runs an external tool (ffmpeg or ffprobe). -/
def Step.isTool : Step → Bool
  | .ffmpeg _ => true
  | .ffprobe _ => true
  | _ => false

/-- The step uploads to the object store. -/
def Step.isUpload : Step → Bool
  | .upload _ _ _ => true
  | _ => false

/-- The ten external steps of a run of `Optimize` that nothing stops, in order:
download, transcode, extract the thumbnail frame, convert the thumbnail, upload the
video, upload the thumbnail, stat the video, probe the video, stat the thumbnail,
probe the thumbnail. -/
def Optimize.steps (w : OptimizeWorld) (req : OptimizeRequest) : List Step :=
  [Step.download (filepathBase req.Filename) (Optimize.inputPath w req),
    Step.ffmpeg (Optimize.args req (Optimize.inputPath w req) (Optimize.optimizedPath w req)),
    Step.ffmpeg (thumbArgs (Optimize.inputPath w req) (Optimize.thumbnailPath w req)),
    Step.ffmpeg (convertArgs (Optimize.thumbnailPath w req)
      (Optimize.convertedThumbnailPath w req)),
    Step.upload (Optimize.optimizedPath w req) (Optimize.optimizedFileName w req)
      ("video/" ++ Optimize.format req),
    Step.upload (Optimize.convertedThumbnailPath w req)
      (Optimize.convertedThumbnailFileName w req) "image/png",
    Step.stat (Optimize.optimizedPath w req),
    Step.ffprobe (Optimize.optimizedPath w req),
    Step.stat (Optimize.convertedThumbnailPath w req),
    Step.decodeImage (Optimize.convertedThumbnailPath w req)]

/-- For each of the ten steps of `Optimize.steps`, whether the world makes it fail
fatally; the two dimension probes are never fatal. -/
def Optimize.fatal (w : OptimizeWorld) (fs : Files) (req : OptimizeRequest) : List Bool :=
  [(Download w.download (Optimize.inputPath w req) fs).2.isSome,
    w.transcode.err.isSome,
    w.thumbnail.err.isSome,
    w.convertThumbnail.err.isSome,
    (Upload w.uploadVideo (Optimize.optimizedPath w req)).isSome,
    (Upload w.uploadThumbnail (Optimize.convertedThumbnailPath w req)).isSome,
    w.statVideo.toOption.isNone,
    false,
    w.statThumbnail.toOption.isNone,
    false]

/-! ## Sample worlds and forms of input -/

/-- A world in which every external step succeeds. -/
def happyWorld : OptimizeWorld where
  tempDir := "/tmp"
  suffix := "123e4567-e89b-42d3-a456-426614174000"
  download := ⟨none, none, none⟩
  transcode := ⟨none, "", true⟩
  thumbnail := ⟨none, "", true⟩
  convertThumbnail := ⟨none, "", true⟩
  uploadVideo := ⟨none, none⟩
  uploadThumbnail := ⟨none, none⟩
  statVideo := .ok 1048576
  probeVideo := .ok "1280x720\n"
  statThumbnail := .ok 20480
  decodeThumbnail := .ok (1280, 720)

/-- A world in which every external step of the handler `Thumbnail` succeeds. -/
def happyThumbnailWorld : ThumbnailWorld where
  tempDir := "/tmp"
  download := ⟨none, none, none⟩
  thumbnail := ⟨none, "", true⟩
  upload := ⟨none, none⟩
  stat := .ok 20480
  decode := .ok (1280, 720)

/-- A world in which the download breaks in `io.Copy`, after `os.Create` has made the
local file. -/
def copyFailsWorld : OptimizeWorld :=
  { happyWorld with download := ⟨none, none, some "unexpected EOF"⟩ }

/-- A world in which ffmpeg exits with status 1 while transcoding, leaving the output
file it had begun to write. -/
def transcodeFailsWorld : OptimizeWorld :=
  { happyWorld with transcode := ⟨some "exit status 1", "Conversion failed!", true⟩ }

/-- The world of `copyFailsWorld` for the handler `Thumbnail`. -/
def copyFailsThumbnailWorld : ThumbnailWorld :=
  { happyThumbnailWorld with download := ⟨none, none, some "unexpected EOF"⟩ }

/-- The world of `happyWorld` with another uuid. -/
def otherHappyWorld : OptimizeWorld :=
  { happyWorld with suffix := "9b2f6c1e-0d4a-4e7b-8c3d-5a6f7e8d9c0b" }

/-- A world in which every fatal step succeeds and both dimension probes fail:
ffprobe exits with status 1 and the thumbnail does not decode. -/
def probesFailWorld : OptimizeWorld :=
  { happyWorld with
    probeVideo := .error "exit status 1"
    decodeThumbnail := .error "failed to decode image config: image: unknown format" }

/-- The world of `probesFailWorld` for the handler `Thumbnail`. -/
def probeFailsThumbnailWorld : ThumbnailWorld :=
  { happyThumbnailWorld with
    decode := .error "failed to decode image config: image: unknown format" }

/-- A world in which the upload of the video fails in `PutObject`. -/
def uploadFailsWorld : OptimizeWorld :=
  { happyWorld with uploadVideo := ⟨none, some "connection reset by peer"⟩ }

/-- A world in which the store answers `GetObject` with an error that names the key
and the request. -/
def noSuchKeyWorld : OptimizeWorld :=
  { happyWorld with
    download := ⟨some "NoSuchKey: The specified key does not exist. RequestID: 4C1A", none, none⟩ }

/-- The world of `noSuchKeyWorld` with another error of the store, and nothing else
changed. -/
def accessDeniedWorld : OptimizeWorld :=
  { happyWorld with
    download := ⟨some "AccessDenied: Access Denied. HostID: r2-internal-7", none, none⟩ }

/-- The world of `transcodeFailsWorld` where ffmpeg is killed instead, and nothing else
changed. -/
def transcodeKilledWorld : OptimizeWorld :=
  { happyWorld with transcode := ⟨some "signal: killed", "Conversion failed!", true⟩ }

/-- The world of `transcodeFailsWorld` with another temp directory, another uuid,
another captured output and no output file left. -/
def transcodeFailsQuietWorld : OptimizeWorld :=
  { happyWorld with
    tempDir := "/var/tmp"
    suffix := "9b2f6c1e-0d4a-4e7b-8c3d-5a6f7e8d9c0b"
    transcode := ⟨some "exit status 1", "", false⟩ }

/-- A world in which the frame extraction of the handler `Thumbnail` fails. -/
def extractFailsThumbnailWorld : ThumbnailWorld :=
  { happyThumbnailWorld with
    thumbnail := ⟨some "exit status 1", "Output file is empty, nothing was encoded", true⟩ }

/-- The world of `extractFailsThumbnailWorld` with another temp directory, another
captured output and no output file left. -/
def extractFailsQuietThumbnailWorld : ThumbnailWorld :=
  { happyThumbnailWorld with
    tempDir := "/var/tmp"
    thumbnail := ⟨some "exit status 1", "", false⟩ }

/-- A world in which every step up to the uploads succeeds and `os.Stat` does not find
the optimized video. -/
def statFailsWorld : OptimizeWorld :=
  { happyWorld with statVideo := .error "no such file or directory" }

/-- The world of `statFailsWorld` with another uuid, and nothing else changed. -/
def otherStatFailsWorld : OptimizeWorld :=
  { happyWorld with
    suffix := "9b2f6c1e-0d4a-4e7b-8c3d-5a6f7e8d9c0b"
    statVideo := .error "no such file or directory" }

/-- The download and the three commands of `Optimize` succeed in this world. -/
def Optimize.toolsSucceed (w : OptimizeWorld) : Bool :=
  decide (w.download = ⟨none, none, none⟩) && w.transcode.err.isNone &&
    w.thumbnail.err.isNone && w.convertThumbnail.err.isNone

/-- The download, the three commands and the two uploads of `Optimize` succeed in this
world. -/
def Optimize.uploadsSucceed (w : OptimizeWorld) : Bool :=
  Optimize.toolsSucceed w && decide (w.uploadVideo = ⟨none, none⟩) &&
    decide (w.uploadThumbnail = ⟨none, none⟩)

/-- The download and the command of the handler `Thumbnail` succeed in this world. -/
def ThumbnailHandler.toolSucceeds (w : ThumbnailWorld) : Bool :=
  decide (w.download = ⟨none, none, none⟩) && w.thumbnail.err.isNone

/-- The resolution has the form of the claim: one or more decimal digits, then `p`. -/
def IsDigitsP (res : String) : Prop :=
  ∃ ds : List Char, ds ≠ [] ∧ ds.all isDigit = true ∧ res.data = ds ++ ['p']

/-- The resolution is an optional sign, one or more decimal digits, then `p`. -/
def IsSignedDigitsP (res : String) : Prop :=
  ∃ sign ds : List Char, (sign = [] ∨ sign = ['+'] ∨ sign = ['-']) ∧ ds ≠ [] ∧
    ds.all isDigit = true ∧ res.data = sign ++ ds ++ ['p']

/-! ## Lemmas on the string helpers -/

theorem HasSuffix_append_p (d : String) : HasSuffix (d ++ "p") "p" = true := by
  simp [HasSuffix, String.data_append]

theorem TrimSuffix_append_p (d : String) : TrimSuffix (d ++ "p") "p" = d := by
  simp [TrimSuffix, HasSuffix_append_p, String.data_append]

theorem HasSuffix_p_data (res : String) (h : HasSuffix res "p" = true) :
    res.data = (TrimSuffix res "p").data ++ ['p'] := by
  have h2 := h
  simp only [HasSuffix, Bool.and_eq_true, decide_eq_true_eq] at h2
  simp only [TrimSuffix, h, if_true]
  show res.data = List.take (res.data.length - ['p'].length) res.data ++ ['p']
  conv_lhs => rw [← List.take_append_drop (res.data.length - ['p'].length) res.data]
  rw [h2.2]

theorem isDigit_ne_minus (c : Char) (hc : isDigit c = true) : c ≠ '-' := by
  rintro rfl; revert hc; decide

theorem isDigit_ne_plus (c : Char) (hc : isDigit c = true) : c ≠ '+' := by
  rintro rfl; revert hc; decide

theorem Atoi_digits (d : String) (hne : d.data ≠ []) (hd : d.data.all isDigit = true)
    (hr : digitsValue d.data < 2 ^ 63) : Atoi d = some (digitsValue d.data : Int) := by
  unfold Atoi
  match h : d.data with
  | [] => exact absurd h hne
  | c :: ds =>
    rw [h] at hd hr
    have hc : isDigit c = true := by simp [List.all_cons] at hd; exact hd.1
    have hr2 : digitsValue (c :: ds) < 9223372036854775808 := by simpa using hr
    simp [isDigit_ne_minus c hc, isDigit_ne_plus c hc, parseDigits, hd, intSize, hr2]

theorem parseDigits_some (ds : List Char) (n : Nat) (h : parseDigits ds = some n) :
    ds ≠ [] ∧ ds.all isDigit = true := by
  unfold parseDigits at h
  split at h
  · assumption
  · cases h

theorem Atoi_some_form (s : String) (v : Int) (h : Atoi s = some v) :
    ∃ sign ds, (sign = [] ∨ sign = ['+'] ∨ sign = ['-']) ∧ ds ≠ [] ∧
      ds.all isDigit = true ∧ s.data = sign ++ ds := by
  unfold Atoi at h
  match hs : s.data with
  | [] => rw [hs] at h; cases h
  | c :: ds =>
    rw [hs] at h
    simp only at h
    split at h
    · next hc =>
      cases hp : parseDigits ds with
      | none => rw [hp] at h; cases h
      | some n =>
        obtain ⟨h1, h2⟩ := parseDigits_some ds n hp
        exact ⟨['-'], ds, Or.inr (Or.inr rfl), h1, h2, by simp [hc]⟩
    · split at h
      · next hc =>
        cases hp : parseDigits ds with
        | none => rw [hp] at h; cases h
        | some n =>
          obtain ⟨h1, h2⟩ := parseDigits_some ds n hp
          exact ⟨['+'], ds, Or.inr (Or.inl rfl), h1, h2, by simp [hc]⟩
      · cases hp : parseDigits (c :: ds) with
        | none => rw [hp] at h; cases h
        | some n =>
          obtain ⟨h1, h2⟩ := parseDigits_some (c :: ds) n hp
          exact ⟨[], c :: ds, Or.inl rfl, h1, h2, by simp⟩


/-! ## Lemmas on the trace of `Optimize` -/

theorem Optimize.describe_trace (w : OptimizeWorld) (req : OptimizeRequest) (defers : List String)
    (trace : List Step) (fs : Files) :
    trace <+: (Optimize.describe w req defers trace fs).trace := by
  unfold Optimize.describe
  cases w.statVideo with
  | error e => exact List.prefix_append _ _
  | ok n =>
    cases w.statThumbnail with
    | error e =>
      exact (List.prefix_append _ _).trans
        ((List.prefix_append _ _).trans (List.prefix_append _ _))
    | ok m =>
      exact (List.prefix_append _ _).trans
        ((List.prefix_append _ _).trans
          ((List.prefix_append _ _).trans (List.prefix_append _ _)))

theorem Optimize.deliver_trace (w : OptimizeWorld) (req : OptimizeRequest) (defers : List String)
    (trace : List Step) (fs : Files) :
    trace <+: (Optimize.deliver w req defers trace fs).trace := by
  unfold Optimize.deliver
  cases Upload w.uploadVideo (Optimize.optimizedPath w req) with
  | some e => exact List.prefix_append _ _
  | none =>
    cases Upload w.uploadThumbnail (Optimize.convertedThumbnailPath w req) with
    | some e => exact (List.prefix_append _ _).trans (List.prefix_append _ _)
    | none =>
      exact (List.prefix_append _ _).trans
        ((List.prefix_append _ _).trans (Optimize.describe_trace w req defers _ fs))

/-- Once the download has succeeded, the run of `Optimize` starts with the download
followed by the transcoding command built by `Optimize.args`. -/
theorem Optimize.trace_transcode (w : OptimizeWorld) (fs : Files) (req : OptimizeRequest)
    (hne : req.Filename ≠ "")
    (hdl : (Download w.download (Optimize.inputPath w req) fs).2 = none) :
    (Optimize w fs (.ok req)).trace.take 2 =
      [Step.download (filepathBase req.Filename) (Optimize.inputPath w req),
        Step.ffmpeg (Optimize.args req (Optimize.inputPath w req) (Optimize.optimizedPath w req))] := by
  unfold Optimize
  simp only [hne, if_false]
  rcases hd : Download w.download (Optimize.inputPath w req) fs with ⟨fs1, e1⟩
  rw [hd] at hdl
  simp only at hdl
  subst hdl
  simp only []
  rcases runCommand w.transcode "ffmpeg" _ fs1 with ⟨fs2, _ | e2⟩
  · simp only []
    rcases runCommand w.thumbnail "ffmpeg" _ fs2 with ⟨fs3, _ | e3⟩
    · simp only []
      rcases runCommand w.convertThumbnail "ffmpeg" _ fs3 with ⟨fs4, _ | e4⟩
      · simp only []
        have hp := Optimize.deliver_trace w req
          [Optimize.convertedThumbnailPath w req, Optimize.thumbnailPath w req,
            Optimize.optimizedPath w req, Optimize.inputPath w req]
          ([Step.download (filepathBase req.Filename) (Optimize.inputPath w req)] ++
            [Step.ffmpeg (Optimize.args req (Optimize.inputPath w req) (Optimize.optimizedPath w req))] ++
            [Step.ffmpeg (thumbArgs (Optimize.inputPath w req) (Optimize.thumbnailPath w req))] ++
            [Step.ffmpeg (convertArgs (Optimize.thumbnailPath w req)
              (Optimize.convertedThumbnailPath w req))]) fs4
        obtain ⟨rest, hrest⟩ := hp
        rw [← hrest]
        rfl
      · rfl
    · rfl
  · rfl


theorem Optimize.args_scale (req : OptimizeRequest) (res scale i o : String)
    (hopt : req.Options.lookup "resolution" = some res) (hres : res ≠ "")
    (hs : resolutionToScale res = (scale, true)) :
    Optimize.args req i o =
      ["-i", i, "-vf", "scale=" ++ scale, "-c:v", "libvpx-vp9", "-crf", "30", "-b:v", "1M",
        "-c:a", "libopus", "-b:a", "128k", "-y", o] := by
  simp [Optimize.args, hopt, hres, hs]

theorem Optimize.args_plain (req : OptimizeRequest) (res i o : String)
    (hopt : req.Options.lookup "resolution" = some res)
    (hs : (resolutionToScale res).2 = false) :
    Optimize.args req i o =
      ["-i", i, "-c:v", "libvpx-vp9", "-crf", "30", "-b:v", "1M",
        "-c:a", "libopus", "-b:a", "128k", "-y", o] := by
  simp [Optimize.args, hopt, hs]

theorem append_p_ne_empty (d : String) : d ++ "p" ≠ "" := by
  intro h
  have := congrArg String.data h
  simp [String.data_append] at this

/-- C1 (as stated, refuted): the digit string 9223372036854775808 denotes a positive
integer, yet `resolutionToScale` rejects it followed by `p` (the value is out of the
range of `int`), and `Optimize` then runs the transcoding command without `-vf`. -/
theorem resolutionToScale_rejects_large_digits :
    "9223372036854775808".data ≠ [] ∧
    "9223372036854775808".data.all isDigit = true ∧
    0 < digitsValue "9223372036854775808".data ∧
    resolutionToScale ("9223372036854775808" ++ "p") = ("", false) ∧
    (Optimize happyWorld [] (.ok ⟨"clip.mp4", [("resolution", "9223372036854775808p")]⟩)).trace.take 2 =
      [Step.download "clip.mp4" "/tmp/clip.mp4",
        Step.ffmpeg ["-i", "/tmp/clip.mp4", "-c:v", "libvpx-vp9", "-crf", "30", "-b:v", "1M",
          "-c:a", "libopus", "-b:a", "128k", "-y",
          "/tmp/clip_123e4567-e89b-42d3-a456-426614174000.webm"]] := by
  refine ⟨by decide, by decide, by decide, by decide, by decide⟩

/-- C1 (amended): for every non-empty string `d` of decimal digits that denotes a
positive integer below 2^63, `resolutionToScale (d ++ "p")` is `("-1:" ++ d, true)`, and
a run of `Optimize` with `options.resolution = d ++ "p"` whose download succeeds issues
the transcoding command with exactly the two arguments `-vf`, `scale=-1:d` put
between the input and the fixed encoding arguments. -/
theorem resolutionToScale_digits_scale (d : String) (w : OptimizeWorld) (fs : Files)
    (req : OptimizeRequest)
    (hne : d.data ≠ []) (hd : d.data.all isDigit = true)
    (_hpos : 0 < digitsValue d.data) (hrange : digitsValue d.data < 2 ^ 63)
    (hfile : req.Filename ≠ "")
    (hopt : req.Options.lookup "resolution" = some (d ++ "p"))
    (hdl : (Download w.download (Optimize.inputPath w req) fs).2 = none) :
    resolutionToScale (d ++ "p") = ("-1:" ++ d, true) ∧
    (Optimize w fs (.ok req)).trace.take 2 =
      [Step.download (filepathBase req.Filename) (Optimize.inputPath w req),
        Step.ffmpeg ["-i", Optimize.inputPath w req, "-vf", "scale=-1:" ++ d,
          "-c:v", "libvpx-vp9", "-crf", "30", "-b:v", "1M", "-c:a", "libopus",
          "-b:a", "128k", "-y", Optimize.optimizedPath w req]] := by
  have hs : resolutionToScale (d ++ "p") = ("-1:" ++ d, true) := by
    simp [resolutionToScale, HasSuffix_append_p, TrimSuffix_append_p,
      Atoi_digits d hne hd hrange]
  refine ⟨hs, ?_⟩
  rw [Optimize.trace_transcode w fs req hfile hdl,
    Optimize.args_scale req (d ++ "p") ("-1:" ++ d) _ _ hopt (append_p_ne_empty d) hs]
  have hcat : "scale=" ++ ("-1:" ++ d) = "scale=-1:" ++ d := by
    rw [← String.append_assoc]; rfl
  rw [hcat]

/-- C1 (amended), at the resolution 720p. -/
theorem resolutionToScale_digits_scale_720 :
    resolutionToScale ("720" ++ "p") = ("-1:" ++ "720", true) ∧
    (Optimize happyWorld [] (.ok ⟨"clip.mp4", [("resolution", "720p")]⟩)).trace.take 2 =
      [Step.download (filepathBase "clip.mp4")
          (Optimize.inputPath happyWorld ⟨"clip.mp4", [("resolution", "720p")]⟩),
        Step.ffmpeg ["-i", Optimize.inputPath happyWorld ⟨"clip.mp4", [("resolution", "720p")]⟩,
          "-vf", "scale=-1:" ++ "720",
          "-c:v", "libvpx-vp9", "-crf", "30", "-b:v", "1M", "-c:a", "libopus",
          "-b:a", "128k", "-y",
          Optimize.optimizedPath happyWorld ⟨"clip.mp4", [("resolution", "720p")]⟩]] :=
  resolutionToScale_digits_scale "720" happyWorld [] ⟨"clip.mp4", [("resolution", "720p")]⟩
    (by decide) (by decide) (by decide) (by decide) (by decide) (by decide) (by decide)


theorem resolutionToScale_some_form (res : String) (h : (resolutionToScale res).2 = true) :
    IsSignedDigitsP res := by
  unfold resolutionToScale at h
  split at h
  · next hsuf =>
    simp only at h
    cases ha : Atoi (TrimSuffix res "p") with
    | none => rw [ha] at h; cases h
    | some v =>
      obtain ⟨sign, ds, hsign, hne, hd, hdata⟩ := Atoi_some_form _ v ha
      exact ⟨sign, ds, hsign, hne, hd, by rw [HasSuffix_p_data res hsuf, hdata]⟩
  · cases h

theorem resolutionToScale_false (res : String) (h : (resolutionToScale res).2 = false) :
    resolutionToScale res = ("", false) := by
  unfold resolutionToScale at h ⊢
  by_cases hsuf : HasSuffix res "p" = true
  · simp only [hsuf, if_true] at h ⊢
    cases ha : Atoi (TrimSuffix res "p") with
    | none => rfl
    | some v => rw [ha] at h; cases h
  · simp [hsuf]

/-- C2 (as stated, refuted): `-720p` is not of the form digits followed by `p`, yet
`resolutionToScale` accepts it (`strconv.Atoi` takes a sign) and `Optimize` passes
`-vf scale=-1:-720` to the transcoding command. -/
theorem resolutionToScale_accepts_sign :
    ¬ IsDigitsP "-720p" ∧
    resolutionToScale "-720p" = ("-1:-720", true) ∧
    (Optimize happyWorld [] (.ok ⟨"clip.mp4", [("resolution", "-720p")]⟩)).trace.take 2 =
      [Step.download "clip.mp4" "/tmp/clip.mp4",
        Step.ffmpeg ["-i", "/tmp/clip.mp4", "-vf", "scale=-1:-720", "-c:v", "libvpx-vp9",
          "-crf", "30", "-b:v", "1M", "-c:a", "libopus", "-b:a", "128k", "-y",
          "/tmp/clip_123e4567-e89b-42d3-a456-426614174000.webm"]] := by
  refine ⟨?_, by decide, by decide⟩
  rintro ⟨ds, _, hd, h⟩
  have h2 : ['-', '7', '2', '0'] ++ ['p'] = ds ++ ['p'] := h
  have h3 := List.append_cancel_right h2
  subst h3
  revert hd
  decide

/-- C2 (amended): for every resolution string that is not an optional sign, one or
more decimal digits and a final `p`, `resolutionToScale` returns `("", false)` and a
run of `Optimize` with that resolution whose download succeeds issues the
transcoding command without any scale filter: the input is followed directly by
the fixed encoding arguments. -/
theorem resolutionToScale_rejects_malformed (res : String) (w : OptimizeWorld) (fs : Files)
    (req : OptimizeRequest)
    (hform : ¬ IsSignedDigitsP res)
    (hfile : req.Filename ≠ "")
    (hopt : req.Options.lookup "resolution" = some res)
    (hdl : (Download w.download (Optimize.inputPath w req) fs).2 = none) :
    resolutionToScale res = ("", false) ∧
    (Optimize w fs (.ok req)).trace.take 2 =
      [Step.download (filepathBase req.Filename) (Optimize.inputPath w req),
        Step.ffmpeg ["-i", Optimize.inputPath w req,
          "-c:v", "libvpx-vp9", "-crf", "30", "-b:v", "1M", "-c:a", "libopus",
          "-b:a", "128k", "-y", Optimize.optimizedPath w req]] := by
  have hs : (resolutionToScale res).2 = false := by
    cases hb : (resolutionToScale res).2 with
    | false => rfl
    | true => exact absurd (resolutionToScale_some_form res hb) hform
  refine ⟨resolutionToScale_false res hs, ?_⟩
  rw [Optimize.trace_transcode w fs req hfile hdl, Optimize.args_plain req res _ _ hopt hs]

/-- C2 (amended), at the resolution `720`, which lacks the final `p`. -/
theorem resolutionToScale_rejects_malformed_720 :
    ¬ IsSignedDigitsP "720" ∧
    resolutionToScale "720" = ("", false) ∧
    (Optimize happyWorld [] (.ok ⟨"clip.mp4", [("resolution", "720")]⟩)).trace.take 2 =
      [Step.download (filepathBase "clip.mp4")
          (Optimize.inputPath happyWorld ⟨"clip.mp4", [("resolution", "720")]⟩),
        Step.ffmpeg ["-i", Optimize.inputPath happyWorld ⟨"clip.mp4", [("resolution", "720")]⟩,
          "-c:v", "libvpx-vp9", "-crf", "30", "-b:v", "1M", "-c:a", "libopus",
          "-b:a", "128k", "-y",
          Optimize.optimizedPath happyWorld ⟨"clip.mp4", [("resolution", "720")]⟩]] :=
  have hform : ¬ IsSignedDigitsP "720" := by
    rintro ⟨sign, ds, _, _, _, h⟩
    have h2 := congrArg List.getLast? h
    have h3 : "720".data.getLast? = some '0' := by decide
    rw [h3] at h2
    simp at h2
  ⟨hform, resolutionToScale_rejects_malformed "720" happyWorld []
    ⟨"clip.mp4", [("resolution", "720")]⟩ hform (by decide) (by decide) (by decide)⟩


theorem runCommand_snd (c : CommandRun) (name : String) (args : List String) (fs : Files) :
    (runCommand c name args fs).2 = c.err.map (fun e => "command " ++ name ++ " failed: " ++ e) := by
  unfold runCommand
  cases c.err <;> rfl

/-- C3: for a non-empty source key, any options and any suffix token `s`, in a
run of `Optimize` where the download, the three commands, both uploads and both
size reads succeed, the video is uploaded under the key `stem_s.format` with
content type `video/format` and the thumbnail under
`stem_s_thumbnail_converted.png` with content type `image/png`, where `stem` is
the base name without its extension and `format` is `options.format` when present
and non-empty and `webm` otherwise; the response reports exactly these keys and
MIME types. -/
theorem Optimize_keys_and_mime (w : OptimizeWorld) (fs : Files) (req : OptimizeRequest)
    (videoSize thumbSize : Int)
    (hfile : req.Filename ≠ "")
    (hdl : (Download w.download (Optimize.inputPath w req) fs).2 = none)
    (htr : w.transcode.err = none) (hth : w.thumbnail.err = none)
    (hcv : w.convertThumbnail.err = none)
    (huv : Upload w.uploadVideo (Optimize.optimizedPath w req) = none) (hut : Upload w.uploadThumbnail (Optimize.convertedThumbnailPath w req) = none)
    (hsv : w.statVideo = .ok videoSize) (hst : w.statThumbnail = .ok thumbSize) :
    ((Optimize w fs (.ok req)).trace.drop 4).take 2 =
      [Step.upload (Optimize.optimizedPath w req)
          (getFilename (filepathBase req.Filename) ++ "_" ++ w.suffix ++ "." ++ Optimize.format req)
          ("video/" ++ Optimize.format req),
        Step.upload (Optimize.convertedThumbnailPath w req)
          (getFilename (filepathBase req.Filename) ++ "_" ++ w.suffix ++
            "_thumbnail_converted.png")
          "image/png"] ∧
    ∃ body, (Optimize w fs (.ok req)).response = .ok body ∧
      body.OptimizedVideo.Filename =
        getFilename (filepathBase req.Filename) ++ "_" ++ w.suffix ++ "." ++ Optimize.format req ∧
      body.OptimizedVideo.MimeType = "video/" ++ Optimize.format req ∧
      body.Thumbnail.Filename =
        getFilename (filepathBase req.Filename) ++ "_" ++ w.suffix ++
          "_thumbnail_converted.png" ∧
      body.Thumbnail.MimeType = "image/png" ∧
      Optimize.format req =
        (match req.Options.lookup "format" with
          | some f => if f ≠ "" then f else "webm"
          | none => "webm") := by
  unfold Optimize
  simp only [hfile, if_false]
  rcases hd : Download w.download (Optimize.inputPath w req) fs with ⟨fs1, e1⟩
  rw [hd] at hdl
  simp only at hdl
  subst hdl
  simp only []
  rcases h2 : runCommand w.transcode "ffmpeg"
    (Optimize.args req (Optimize.inputPath w req) (Optimize.optimizedPath w req)) fs1 with ⟨fs2, e2⟩
  have := runCommand_snd w.transcode "ffmpeg"
    (Optimize.args req (Optimize.inputPath w req) (Optimize.optimizedPath w req)) fs1
  rw [h2, htr] at this
  simp only [Option.map_none'] at this
  subst this
  simp only []
  rcases h3 : runCommand w.thumbnail "ffmpeg"
    (thumbArgs (Optimize.inputPath w req) (Optimize.thumbnailPath w req)) fs2 with ⟨fs3, e3⟩
  have := runCommand_snd w.thumbnail "ffmpeg"
    (thumbArgs (Optimize.inputPath w req) (Optimize.thumbnailPath w req)) fs2
  rw [h3, hth] at this
  simp only [Option.map_none'] at this
  subst this
  simp only []
  rcases h4 : runCommand w.convertThumbnail "ffmpeg"
    (convertArgs (Optimize.thumbnailPath w req) (Optimize.convertedThumbnailPath w req)) fs3
    with ⟨fs4, e4⟩
  have := runCommand_snd w.convertThumbnail "ffmpeg"
    (convertArgs (Optimize.thumbnailPath w req) (Optimize.convertedThumbnailPath w req)) fs3
  rw [h4, hcv] at this
  simp only [Option.map_none'] at this
  subst this
  simp only [Optimize.deliver, Optimize.describe, huv, hut, hsv, hst, Run.finish]
  refine ⟨rfl, _, rfl, rfl, rfl, rfl, rfl, rfl⟩


/-- C3, at the source key `clip.mp4` with empty options: the keys are
`clip_<s>.webm` and `clip_<s>_thumbnail_converted.png`, the content types
`video/webm` and `image/png`. -/
theorem Optimize_keys_and_mime_clip :
    ((Optimize happyWorld [] (.ok ⟨"clip.mp4", []⟩)).trace.drop 4).take 2 =
      [Step.upload "/tmp/clip_123e4567-e89b-42d3-a456-426614174000.webm"
          "clip_123e4567-e89b-42d3-a456-426614174000.webm" "video/webm",
        Step.upload "/tmp/clip_123e4567-e89b-42d3-a456-426614174000_thumbnail_converted.png"
          "clip_123e4567-e89b-42d3-a456-426614174000_thumbnail_converted.png" "image/png"] ∧
    ∃ body, (Optimize happyWorld [] (.ok ⟨"clip.mp4", []⟩)).response = .ok body ∧
      body.OptimizedVideo.Filename = "clip_123e4567-e89b-42d3-a456-426614174000.webm" ∧
      body.OptimizedVideo.MimeType = "video/webm" ∧
      body.Thumbnail.Filename =
        "clip_123e4567-e89b-42d3-a456-426614174000_thumbnail_converted.png" ∧
      body.Thumbnail.MimeType = "image/png" ∧
      Optimize.format ⟨"clip.mp4", []⟩ = "webm" :=
  Optimize_keys_and_mime happyWorld [] ⟨"clip.mp4", []⟩ 1048576 20480
    (by decide) (by decide) (by decide) (by decide) (by decide) (by decide) (by decide)
    rfl rfl


/-- C4 (defect of the code): with the option `format` set to `/../../etc/x`, the path
`Optimize` hands to ffmpeg as output, stats, probes and finally removes is `/etc/x`,
outside the temp directory `/tmp`; and the source key `..`, whose base name is `..`,
makes the input path of `Optimize` and of `Thumbnail` the parent `/` of the temp
directory. -/
theorem Optimize_path_escapes_tempDir :
    Optimize.optimizedPath happyWorld ⟨"clip.mp4", [("format", "/../../etc/x")]⟩ = "/etc/x" ∧
    isDirectChild happyWorld.tempDir "/etc/x" = false ∧
    Step.ffmpeg ["-i", "/tmp/clip.mp4", "-c:v", "libvpx-vp9", "-crf", "30", "-b:v", "1M",
        "-c:a", "libopus", "-b:a", "128k", "-y", "/etc/x"] ∈
      (Optimize happyWorld [] (.ok ⟨"clip.mp4", [("format", "/../../etc/x")]⟩)).trace ∧
    "/etc/x" ∈ (Optimize happyWorld [] (.ok ⟨"clip.mp4", [("format", "/../../etc/x")]⟩)).removed ∧
    Optimize.inputPath happyWorld ⟨"..", []⟩ = "/" ∧
    Step.download ".." "/" ∈ (Optimize happyWorld [] (.ok ⟨"..", []⟩)).trace ∧
    "/" ∈ (Optimize happyWorld [] (.ok ⟨"..", []⟩)).removed ∧
    ThumbnailHandler.inputPath happyThumbnailWorld ⟨".."⟩ = "/" ∧
    Step.download ".." "/" ∈ (ThumbnailHandler happyThumbnailWorld [] (.ok ⟨".."⟩)).trace ∧
    isDirectChild happyWorld.tempDir "/" = false := by
  refine ⟨by decide, by decide, by decide, by decide, by decide, by decide, by decide,
    by decide, by decide, by decide⟩

/-- C5 (defect of the code): when the download breaks in `io.Copy` after `os.Create`
has made the local file, `Optimize` and `Thumbnail` answer 500 without removing
anything and the file `/tmp/clip.mp4` stays on disk; when ffmpeg fails after it began
to write, its output file stays while the input file is removed. -/
theorem Optimize_leaves_temp_file_of_failed_step :
    Optimize copyFailsWorld [] (.ok ⟨"clip.mp4", []⟩) =
      { response := .error 500
          "failed to download \"clip.mp4\" from S3: error saving file: unexpected EOF"
        trace := [Step.download "clip.mp4" "/tmp/clip.mp4"]
        removed := []
        files := ["/tmp/clip.mp4"] } ∧
    (Optimize transcodeFailsWorld [] (.ok ⟨"clip.mp4", []⟩)).response =
      .error 500 "video optimization failed: command ffmpeg failed: exit status 1" ∧
    (Optimize transcodeFailsWorld [] (.ok ⟨"clip.mp4", []⟩)).removed = ["/tmp/clip.mp4"] ∧
    (Optimize transcodeFailsWorld [] (.ok ⟨"clip.mp4", []⟩)).files =
      ["/tmp/clip_123e4567-e89b-42d3-a456-426614174000.webm"] ∧
    ThumbnailHandler copyFailsThumbnailWorld [] (.ok ⟨"clip.mp4"⟩) =
      { response := .error 500
          "failed to download \"clip.mp4\" from S3: error saving file: unexpected EOF"
        trace := [Step.download "clip.mp4" "/tmp/clip.mp4"]
        removed := []
        files := ["/tmp/clip.mp4"] } := by
  refine ⟨by decide, by decide, by decide, by decide, by decide⟩


theorem s3Delete_eq_none (o : Option String) : s3Delete o = none ↔ o = none := by
  cases o <;> simp [s3Delete]

theorem Delete.loop_spec (deleteObject : Nat → Option String) (rest : List String) :
    ∀ (k : Nat) (trace : List Step) (deleted : List String) (i : Nat),
      i ≤ rest.length →
      (∀ j, j < i → deleteObject (k + j) = none) →
      (i < rest.length → (deleteObject (k + i)).isSome = true) →
      (Delete.loop deleteObject k trace deleted rest).trace =
          trace ++ (rest.take (i + 1)).map Step.deleteObject ∧
        (Delete.loop deleteObject k trace deleted rest).deleted = deleted ++ rest.take i ∧
        (Delete.loop deleteObject k trace deleted rest).response =
          (if i < rest.length then .error 500 "failed to delete object"
            else .ok { Message := "Files deleted" }) := by
  induction rest with
  | nil =>
    intro k trace deleted i hi _ _
    simp [Delete.loop]
  | cons filename rest ih =>
    intro k trace deleted i hi hbefore hat
    cases i with
    | zero =>
      have h0 := hat (by simp)
      cases hd : deleteObject k with
      | none => simp [hd] at h0
      | some e => simp [Delete.loop, hd, s3Delete]
    | succ i =>
      have h0 : deleteObject k = none := by simpa using hbefore 0 (by omega)
      have hi2 : i ≤ rest.length := by simpa using hi
      have hb2 : ∀ j, j < i → deleteObject (k + 1 + j) = none := by
        intro j hj
        have := hbefore (j + 1) (by omega)
        rwa [show k + 1 + j = k + (j + 1) by omega]
      have ha2 : i < rest.length → (deleteObject (k + 1 + i)).isSome = true := by
        intro hlt
        have := hat (by simpa using hlt)
        rwa [show k + 1 + i = k + (i + 1) by omega]
      obtain ⟨h1, h2, h3⟩ := ih (k + 1) (trace ++ [Step.deleteObject filename])
        (deleted ++ [filename]) i hi2 hb2 ha2
      simp only [Delete.loop, h0, s3Delete]
      refine ⟨?_, ?_, ?_⟩
      · rw [h1]; simp
      · rw [h2]; simp
      · rw [h3]; simp

/-- C6: let `i` be the index of the first deletion the store fails, or the number
of filenames when none fails.  `Delete` issues the deletions for the filenames at
the indices 0..i in list order and no other, the filenames before `i` are deleted,
and the response is 400 for the empty list (nothing attempted), 500 when a deletion
failed, and 200 with the message `Files deleted` otherwise. -/
theorem Delete_stops_at_first_failure (deleteObject : Nat → Option String)
    (filenames : List String) (i : Nat)
    (hi : i ≤ filenames.length)
    (hbefore : ∀ j, j < i → deleteObject j = none)
    (hat : i < filenames.length → (deleteObject i).isSome = true) :
    (Delete deleteObject (.ok ⟨filenames⟩)).trace =
        (filenames.take (i + 1)).map Step.deleteObject ∧
      (Delete deleteObject (.ok ⟨filenames⟩)).deleted = filenames.take i ∧
      (Delete deleteObject (.ok ⟨filenames⟩)).response =
        (if filenames = [] then .error 400 "at least one filename is required"
          else if i < filenames.length then .error 500 "failed to delete object"
          else .ok { Message := "Files deleted" }) ∧
      (Delete deleteObject (.ok ⟨filenames⟩)).response.status =
        (if filenames = [] then 400 else if i < filenames.length then 500 else 200) := by
  by_cases hnil : filenames = []
  · subst hnil
    simp [Delete, Response.status]
  · have hlen : filenames.length ≠ 0 := by simpa using hnil
    obtain ⟨h1, h2, h3⟩ := Delete.loop_spec deleteObject filenames 0 [] [] i hi
      (by simpa using hbefore) (by simpa using hat)
    simp only [Delete, hlen, if_false, hnil]
    refine ⟨by simpa using h1, by simpa using h2, h3, ?_⟩
    rw [h3]
    split <;> rfl

/-- C6, for the filenames `a.png`, `b.png` when the store fails to delete `b.png`:
both deletions are attempted, `a.png` is deleted, the status is 500. -/
theorem Delete_stops_at_first_failure_ab :
    (Delete (fun j => if j = 1 then some "AccessDenied" else none)
        (.ok ⟨["a.png", "b.png"]⟩)).trace =
        [Step.deleteObject "a.png", Step.deleteObject "b.png"] ∧
      (Delete (fun j => if j = 1 then some "AccessDenied" else none)
        (.ok ⟨["a.png", "b.png"]⟩)).deleted = ["a.png"] ∧
      (Delete (fun j => if j = 1 then some "AccessDenied" else none)
        (.ok ⟨["a.png", "b.png"]⟩)).response = .error 500 "failed to delete object" ∧
      (Delete (fun j => if j = 1 then some "AccessDenied" else none)
        (.ok ⟨["a.png", "b.png"]⟩)).response.status = 500 :=
  Delete_stops_at_first_failure (fun j => if j = 1 then some "AccessDenied" else none)
    ["a.png", "b.png"] 1 (by decide)
    (by intro j hj; obtain rfl : j = 0 := (by omega); rfl) (by intro _; rfl)


theorem lor_eq_zero (a b : Nat) : a ||| b = 0 ↔ a = 0 ∧ b = 0 := by
  constructor
  · intro h
    have key : ∀ i, a.testBit i = false ∧ b.testBit i = false := by
      intro i
      have := congrArg (fun n => Nat.testBit n i) h
      simpa [Nat.testBit_or] using this
    exact ⟨Nat.eq_of_testBit_eq (by intro i; simp [(key i).1]),
      Nat.eq_of_testBit_eq (by intro i; simp [(key i).2])⟩
  · rintro ⟨rfl, rfl⟩
    rfl

theorem foldl_lor_eq_zero (l : List Nat) :
    ∀ v, l.foldl (fun v d => v ||| d) v = 0 ↔ v = 0 ∧ ∀ d ∈ l, d = 0 := by
  induction l with
  | nil => intro v; simp
  | cons d l ih =>
    intro v
    rw [List.foldl_cons, ih, lor_eq_zero]
    simp [and_assoc]

theorem char_toNat_inj (a b : Char) (h : a.toNat = b.toNat) : a = b := by
  apply Char.ext
  apply UInt32.ext
  exact h

theorem zipWith_xor_zero (x : List Char) :
    ∀ y : List Char, x.length = y.length →
      ((∀ d ∈ List.zipWith (fun a b => a.toNat ^^^ b.toNat) x y, d = 0) ↔ x = y) := by
  induction x with
  | nil =>
    intro y hy
    cases y with
    | nil => simp
    | cons b y => simp at hy
  | cons a x ih =>
    intro y hy
    cases y with
    | nil => simp at hy
    | cons b y =>
      have hlen : x.length = y.length := by simpa using hy
      simp only [List.zipWith_cons_cons, List.mem_cons, forall_eq_or_imp, ih y hlen,
        Nat.xor_eq_zero, List.cons.injEq]
      constructor
      · rintro ⟨h1, h2⟩
        exact ⟨char_toNat_inj a b h1, h2⟩
      · rintro ⟨rfl, rfl⟩
        exact ⟨rfl, rfl⟩

theorem ConstantTimeCompare_eq_one (x y : List Char) : ConstantTimeCompare x y = 1 ↔ x = y := by
  unfold ConstantTimeCompare
  by_cases hlen : x.length = y.length
  · simp only [hlen, ne_eq, not_true_eq_false, if_false]
    have h := foldl_lor_eq_zero (List.zipWith (fun a b => a.toNat ^^^ b.toNat) x y) 0
    by_cases hv : (List.zipWith (fun a b => a.toNat ^^^ b.toNat) x y).foldl
        (fun v d => v ||| d) 0 = 0
    · simp only [hv, if_true, true_iff]
      exact (zipWith_xor_zero x y hlen).1 (h.1 hv).2
    · simp only [hv, if_false]
      constructor
      · intro h1; cases h1
      · intro hxy
        exact absurd (h.2 ⟨rfl, (zipWith_xor_zero x y hlen).2 hxy⟩) hv
  · simp only [ne_eq, hlen, not_false_eq_true, if_true]
    constructor
    · intro h1; cases h1
    · intro hxy; exact absurd (congrArg List.length hxy) hlen

theorem HasPrefix_iff (s p : String) : HasPrefix s p = true ↔ ∃ t : String, s = p ++ t := by
  unfold HasPrefix
  simp only [Bool.and_eq_true, decide_eq_true_eq]
  constructor
  · rintro ⟨_, h2⟩
    refine ⟨⟨s.data.drop p.data.length⟩, ?_⟩
    apply String.ext
    rw [String.data_append]
    conv_lhs => rw [← List.take_append_drop p.data.length s.data, h2]
  · rintro ⟨t, rfl⟩
    simp [String.data_append]

theorem TrimPrefix_append (p t : String) : TrimPrefix (p ++ t) p = t := by
  have h : HasPrefix (p ++ t) p = true := (HasPrefix_iff _ _).2 ⟨t, rfl⟩
  unfold TrimPrefix
  simp only [h, if_true]
  apply String.ext
  simp [String.data_append]

/-- C7: for every request and every configured secret, `Auth` calls the wrapped
handler exactly when the Authorization header is `API-Key ` followed by the
secret; in every other case (header absent, another scheme, a token that differs
in content or in length) it answers 401 and does not call the handler. -/
theorem Auth_iff_exact_key {α : Type} (apiKey : String) (next : Request → α) (r : Request) :
    Auth apiKey next r =
      (if r.HeaderGet "Authorization" = "API-Key " ++ apiKey then .next (next r)
        else .rejected 401 "Unauthorized") := by
  unfold Auth
  simp only []
  by_cases hp : HasPrefix (r.HeaderGet "Authorization") "API-Key " = true
  · obtain ⟨t, ht⟩ := (HasPrefix_iff _ _).1 hp
    rw [ht] at hp ⊢
    simp only [hp, if_true, TrimPrefix_append]
    by_cases hc : ConstantTimeCompare t.data apiKey.data = 1
    · have : t = apiKey := String.ext ((ConstantTimeCompare_eq_one _ _).1 hc)
      subst this
      simp [hc]
    · have hne : t ≠ apiKey := by
        intro h
        exact hc ((ConstantTimeCompare_eq_one _ _).2 (by rw [h]))
      have hne2 : "API-Key " ++ t ≠ "API-Key " ++ apiKey := by
        intro h
        apply hne
        apply String.ext
        have := congrArg String.data h
        simpa [String.data_append] using this
      simp [hc, hne2]
  · have hne : r.HeaderGet "Authorization" ≠ "API-Key " ++ apiKey := by
      intro h
      exact hp ((HasPrefix_iff _ _).2 ⟨apiKey, h⟩)
    simp [hp, hne]


/-! ## Lemmas on the limiter and the map of visitors -/

theorem Limiter.Allow_fresh (now : Int) :
    (NewLimiter Second 5).Allow now =
      (true, { interval := Second, burst := 5, credit := 4 * Second, last := now }) := by
  simp only [Limiter.Allow, Limiter.advance, NewLimiter, Second]
  split_ifs <;> first
    | rfl
    | omega
    | (simp only [Prod.mk.injEq, Limiter.mk.injEq, true_and, and_true]; omega)

/-- A limiter that holds `k` whole tokens is asked `j` whole seconds after its last
grant, with `1 ≤ k + j ≤ 5`: the token is granted and taken from the credit. -/
theorem Limiter.Allow_grant_whole (c l now k j : Int) (hc : c = k * Second)
    (hnow : now = l + j * Second) (_hk : 0 ≤ k) (hj : 0 ≤ j) (h1 : 1 ≤ k + j)
    (h5 : k + j ≤ 5) :
    Limiter.Allow { interval := Second, burst := 5, credit := c, last := l } now =
      (true, { interval := Second, burst := 5, credit := c + (now - l) - Second, last := now }) := by
  simp only [Limiter.Allow, Limiter.advance, Second] at *
  split_ifs <;> first
    | rfl
    | omega

/-- A limiter that holds no token is asked again at the instant of its last grant:
the token is refused and the limiter is unchanged. -/
theorem Limiter.Allow_refuse_empty (c l now : Int) (hc : c = 0) (hnow : now = l) :
    Limiter.Allow { interval := Second, burst := 5, credit := c, last := l } now =
      (false, { interval := Second, burst := 5, credit := c, last := l }) := by
  simp only [Limiter.Allow, Limiter.advance, Second] at *
  split_ifs <;> first
    | rfl
    | omega

theorem Visitors.set_of_lookup_none (visitors : Visitors) (ip : String) (lim : Limiter)
    (h : visitors.lookup ip = none) : visitors.set ip lim = visitors := by
  induction visitors with
  | nil => rfl
  | cons e visitors ih =>
    obtain ⟨k, l⟩ := e
    by_cases hk : ip = k
    · subst hk
      simp [List.lookup] at h
    · have hk2 : (ip == k) = false := by simpa using hk
      have h2 : visitors.lookup ip = none := by simpa [List.lookup, hk2] using h
      have hk3 : ¬ k = ip := fun h => hk h.symm
      simp only [Visitors.set, List.map_cons, hk3, if_false, List.cons.injEq, true_and]
      exact ih h2

/-- A request from a client key the map does not hold: the limiter is created, the
request is let through, and the map gains the entry of the key. -/
theorem RateLimit_unseen {α : Type} (next : Request → α) (visitors : Visitors) (now : Int)
    (r : Request) (h : visitors.lookup (RateLimit.ip r) = none) :
    RateLimit next visitors now r =
      (.next (next r),
        (RateLimit.ip r, { interval := Second, burst := 5, credit := 4 * Second, last := now })
          :: visitors) := by
  simp only [RateLimit, getVisitor, h, Limiter.Allow_fresh, Visitors.set, List.map_cons]
  have := Visitors.set_of_lookup_none visitors (RateLimit.ip r)
    { interval := Second, burst := 5, credit := 4 * Second, last := now } h
  simp only [Visitors.set] at this
  simp [this]

/-- A request from the client key at the head of the map: its limiter decides, and
takes the state `Allow` leaves. -/
theorem RateLimit_seen {α : Type} (next : Request → α) (visitors : Visitors) (now : Int)
    (r : Request) (lim : Limiter) (h : visitors.lookup (RateLimit.ip r) = none) :
    RateLimit next ((RateLimit.ip r, lim) :: visitors) now r =
      (if (lim.Allow now).1 then .next (next r) else .rejected 429 "Too Many Requests",
        (RateLimit.ip r, (lim.Allow now).2) :: visitors) := by
  have := Visitors.set_of_lookup_none visitors (RateLimit.ip r) (lim.Allow now).2 h
  simp only [Visitors.set] at this
  simp only [RateLimit, getVisitor, List.lookup, beq_self_eq_true, Visitors.set, List.map_cons,
    this, if_true]
  cases (lim.Allow now).1 <;> simp

/-- C8: for every client key the map of limiters does not hold yet, whose limiter
`getVisitor` therefore creates (one token per second, burst 5): of six requests sent
through `RateLimit` at one instant `t` the first five are let through and the sixth
is rejected with 429; of two more sent one second later the first is let through
and the second is rejected with 429. -/
theorem RateLimit_burst_five_refill_one {α : Type} (next : Request → α) (visitors : Visitors)
    (r : Request) (t : Int)
    (hnew : visitors.lookup (RateLimit.ip r) = none) :
    (RateLimit.serve next visitors
        [(t, r), (t, r), (t, r), (t, r), (t, r), (t, r),
          (t + Second, r), (t + Second, r)]).1 =
      [.next (next r), .next (next r), .next (next r), .next (next r), .next (next r),
        .rejected 429 "Too Many Requests", .next (next r),
        .rejected 429 "Too Many Requests"] := by
  have hS : Second = 1000000000 := rfl
  simp only [RateLimit.serve]
  rw [RateLimit_unseen next visitors t r hnew]
  simp only []
  rw [RateLimit_seen next visitors t r _ hnew,
    Limiter.Allow_grant_whole _ _ t 4 0 (by omega) (by omega) (by omega) (by omega) (by omega)
      (by omega)]
  simp only []
  rw [RateLimit_seen next visitors t r _ hnew,
    Limiter.Allow_grant_whole _ _ t 3 0 (by omega) (by omega) (by omega) (by omega) (by omega)
      (by omega)]
  simp only []
  rw [RateLimit_seen next visitors t r _ hnew,
    Limiter.Allow_grant_whole _ _ t 2 0 (by omega) (by omega) (by omega) (by omega) (by omega)
      (by omega)]
  simp only []
  rw [RateLimit_seen next visitors t r _ hnew,
    Limiter.Allow_grant_whole _ _ t 1 0 (by omega) (by omega) (by omega) (by omega) (by omega)
      (by omega)]
  simp only []
  rw [RateLimit_seen next visitors t r _ hnew,
    Limiter.Allow_refuse_empty _ _ t (by omega) rfl]
  simp only []
  rw [RateLimit_seen next visitors (t + Second) r _ hnew,
    Limiter.Allow_grant_whole _ _ (t + Second) 0 1 (by omega) (by omega) (by omega) (by omega)
      (by omega) (by omega)]
  simp only []
  rw [RateLimit_seen next visitors (t + Second) r _ hnew,
    Limiter.Allow_refuse_empty _ _ (t + Second) (by omega) rfl]
  simp

/-- C8, for a client at `203.0.113.7:40000` that no limiter exists for, at time 0. -/
theorem RateLimit_burst_five_refill_one_first_client :
    (RateLimit.serve (fun _ => ()) []
        [(0, ⟨[], "203.0.113.7:40000"⟩), (0, ⟨[], "203.0.113.7:40000"⟩),
          (0, ⟨[], "203.0.113.7:40000"⟩), (0, ⟨[], "203.0.113.7:40000"⟩),
          (0, ⟨[], "203.0.113.7:40000"⟩), (0, ⟨[], "203.0.113.7:40000"⟩),
          (0 + Second, ⟨[], "203.0.113.7:40000"⟩),
          (0 + Second, ⟨[], "203.0.113.7:40000"⟩)]).1 =
      [.next (), .next (), .next (), .next (), .next (),
        .rejected 429 "Too Many Requests", .next (),
        .rejected 429 "Too Many Requests"] :=
  RateLimit_burst_five_refill_one (fun _ => ()) [] ⟨[], "203.0.113.7:40000"⟩ 0 (by decide)


theorem splitChars_head (sep : Char) (l : List Char) :
    (splitChars sep l).head? = some (l.takeWhile (fun c => c ≠ sep)) := by
  induction l with
  | nil => rfl
  | cons c cs ih =>
    by_cases hc : c = sep
    · simp [splitChars, hc, List.takeWhile]
    · cases hs : splitChars sep cs with
      | nil => rw [hs] at ih; simp at ih
      | cons p ps =>
        rw [hs] at ih
        simp only [List.head?_cons, Option.some.injEq] at ih
        simp [splitChars, hc, hs, List.takeWhile, ih]

theorem Split_headD (s : String) (sep : Char) :
    (Split s sep).headD "" = ⟨s.data.takeWhile (fun c => c ≠ sep)⟩ := by
  have h := splitChars_head sep s.data
  unfold Split
  cases hs : splitChars sep s.data with
  | nil => rw [hs] at h; simp at h
  | cons p ps =>
    rw [hs] at h
    simp only [List.head?_cons, Option.some.injEq] at h
    simp [h]

theorem Visitors.lookup_set (visitors : Visitors) (ip k : String) (lim : Limiter) :
    (visitors.set ip lim).lookup k =
      if k = ip then (visitors.lookup ip).map (fun _ => lim) else visitors.lookup k := by
  induction visitors with
  | nil => simp [Visitors.set]
  | cons e visitors ih =>
    obtain ⟨key, l⟩ := e
    have hcons : Visitors.set ((key, l) :: visitors) ip lim =
        (if key = ip then (ip, lim) else (key, l)) :: Visitors.set visitors ip lim := rfl
    rw [hcons]
    by_cases hkey : key = ip
    · subst hkey
      rw [if_pos rfl, List.lookup_cons, List.lookup_cons, List.lookup_cons]
      by_cases hk : k = key
      · subst hk
        simp
      · have hb : (k == key) = false := by simpa using hk
        simp only [hb, hk, if_false]
        rw [ih, if_neg hk]
    · rw [if_neg hkey, List.lookup_cons, List.lookup_cons, List.lookup_cons]
      by_cases hk : k = key
      · subst hk
        have hb : (ip == k) = false := by simpa using fun h : ip = k => hkey h.symm
        simp [hkey, hb]
      · have hb : (k == key) = false := by simpa using hk
        simp only [hb]
        rw [ih]
        by_cases hki : k = ip
        · subst hki
          have hb2 : (k == key) = false := hb
          simp [hb2]
        · simp [hki]

theorem getVisitor_of_lookup (visitors : Visitors) (ip : String) (lim : Limiter)
    (h : visitors.lookup ip = some lim) : getVisitor visitors ip = (lim, visitors) := by
  unfold getVisitor
  rw [h]

theorem getVisitor_lookup (visitors : Visitors) (ip : String) :
    (getVisitor visitors ip).2.lookup ip = some (getVisitor visitors ip).1 := by
  unfold getVisitor
  cases h : visitors.lookup ip with
  | none => simp [List.lookup]
  | some lim => simp [h]

theorem getVisitor_lookup_other (visitors : Visitors) (ip k : String) (hk : k ≠ ip) :
    (getVisitor visitors ip).2.lookup k = visitors.lookup k := by
  unfold getVisitor
  cases h : visitors.lookup ip with
  | none =>
    have hb : (k == ip) = false := by simpa using hk
    simp [List.lookup, hb]
  | some lim => rfl

theorem RateLimit_snd {α : Type} (next : Request → α) (visitors : Visitors) (now : Int)
    (r : Request) :
    (RateLimit next visitors now r).2 =
      (getVisitor visitors (RateLimit.ip r)).2.set (RateLimit.ip r)
        ((getVisitor visitors (RateLimit.ip r)).1.Allow now).2 := by
  unfold RateLimit
  simp only []
  cases ((getVisitor visitors (RateLimit.ip r)).1.Allow now).1 <;> rfl

/-- C9: the client key `RateLimit` selects the limiter with is what stands before the
first comma of the X-Forwarded-For header when that header is non-empty, and the
remote address of the request otherwise.  A later request `r2` with the same key is
handed, by `getVisitor`, the limiter in the state the request `r` left it in, and no
limiter is created for it; a key `k` the map held before a request it holds after
it, and when `k` is another key its limiter is untouched. -/
theorem RateLimit_client_key {α : Type} (next : Request → α) (visitors : Visitors) (now : Int)
    (r r2 : Request) (k : String) (hkey : RateLimit.ip r2 = RateLimit.ip r) :
    RateLimit.ip r =
        (if r.HeaderGet "X-Forwarded-For" ≠ ""
          then ⟨(r.HeaderGet "X-Forwarded-For").data.takeWhile (fun c => c ≠ ',')⟩
          else r.RemoteAddr) ∧
      getVisitor (RateLimit next visitors now r).2 (RateLimit.ip r2) =
        (((getVisitor visitors (RateLimit.ip r)).1.Allow now).2,
          (RateLimit next visitors now r).2) ∧
      ((visitors.lookup k).isSome = true →
        ((RateLimit next visitors now r).2.lookup k).isSome = true) ∧
      (k ≠ RateLimit.ip r →
        (RateLimit next visitors now r).2.lookup k = visitors.lookup k) := by
  have hother : k ≠ RateLimit.ip r →
      (RateLimit next visitors now r).2.lookup k = visitors.lookup k := by
    intro hk
    rw [RateLimit_snd, Visitors.lookup_set]
    simp only [hk, if_false]
    exact getVisitor_lookup_other visitors _ k hk
  have hself : (RateLimit next visitors now r).2.lookup (RateLimit.ip r) =
      some ((getVisitor visitors (RateLimit.ip r)).1.Allow now).2 := by
    rw [RateLimit_snd, Visitors.lookup_set]
    simp [getVisitor_lookup]
  refine ⟨?_, ?_, ?_, hother⟩
  · unfold RateLimit.ip
    simp only [Split_headD]
  · rw [hkey]
    exact getVisitor_of_lookup _ _ _ hself
  · intro hk
    by_cases hk2 : k = RateLimit.ip r
    · rw [hk2, hself]; rfl
    · rw [hother hk2]; exact hk

/-- C9, for two requests forwarded for the client `10.0.0.1` (the second through
another proxy) while the map holds a limiter for `10.9.9.9`: both get the limiter
of `10.0.0.1`, and the entry of `10.9.9.9` stays as it was. -/
theorem RateLimit_client_key_forwarded :
    RateLimit.ip ⟨[("X-Forwarded-For", "10.0.0.1, 172.16.0.9")], "192.0.2.1:5000"⟩ =
        "10.0.0.1" ∧
      getVisitor (RateLimit (fun _ => ()) [("10.9.9.9", NewLimiter Second 5)] 0
            ⟨[("X-Forwarded-For", "10.0.0.1, 172.16.0.9")], "192.0.2.1:5000"⟩).2
          (RateLimit.ip ⟨[("X-Forwarded-For", "10.0.0.1")], "198.51.100.2:6000"⟩) =
        (⟨Second, 5, 4 * Second, 0⟩,
          [("10.0.0.1", ⟨Second, 5, 4 * Second, 0⟩), ("10.9.9.9", NewLimiter Second 5)]) ∧
      ((List.lookup "10.9.9.9" [("10.9.9.9", NewLimiter Second 5)]).isSome = true →
        ((RateLimit (fun _ => ()) [("10.9.9.9", NewLimiter Second 5)] 0
          ⟨[("X-Forwarded-For", "10.0.0.1, 172.16.0.9")], "192.0.2.1:5000"⟩).2.lookup
            "10.9.9.9").isSome = true) ∧
      ("10.9.9.9" ≠
          RateLimit.ip ⟨[("X-Forwarded-For", "10.0.0.1, 172.16.0.9")], "192.0.2.1:5000"⟩ →
        (RateLimit (fun _ => ()) [("10.9.9.9", NewLimiter Second 5)] 0
          ⟨[("X-Forwarded-For", "10.0.0.1, 172.16.0.9")], "192.0.2.1:5000"⟩).2.lookup
            "10.9.9.9" =
          List.lookup "10.9.9.9" [("10.9.9.9", NewLimiter Second 5)]) :=
  RateLimit_client_key (fun _ => ()) [("10.9.9.9", NewLimiter Second 5)] 0
    ⟨[("X-Forwarded-For", "10.0.0.1, 172.16.0.9")], "192.0.2.1:5000"⟩
    ⟨[("X-Forwarded-For", "10.0.0.1")], "198.51.100.2:6000"⟩ "10.9.9.9" (by decide)

theorem Optimize.describe_upload (w : OptimizeWorld) (req : OptimizeRequest)
    (defers : List String) (trace : List Step) (fs : Files) (p k c : String)
    (h : Step.upload p k c ∈ (Optimize.describe w req defers trace fs).trace) :
    Step.upload p k c ∈ trace := by
  unfold Optimize.describe at h
  cases hsv : w.statVideo with
  | error e => simpa [hsv, Run.finish] using h
  | ok n =>
    cases hst : w.statThumbnail with
    | error e => simpa [hsv, hst, Run.finish] using h
    | ok m => simpa [hsv, hst, Run.finish] using h

theorem Optimize.deliver_upload (w : OptimizeWorld) (req : OptimizeRequest)
    (defers : List String) (trace : List Step) (fs : Files) (p k c : String)
    (h : Step.upload p k c ∈ (Optimize.deliver w req defers trace fs).trace) :
    Step.upload p k c ∈ trace ∨ k = Optimize.optimizedFileName w req ∨
      k = Optimize.convertedThumbnailFileName w req := by
  unfold Optimize.deliver at h
  cases huv : Upload w.uploadVideo (Optimize.optimizedPath w req) with
  | some e =>
    simp only [huv, Run.finish, List.mem_append, List.mem_singleton, Step.upload.injEq] at h
    rcases h with h | ⟨_, h, _⟩
    · exact Or.inl h
    · exact Or.inr (Or.inl h)
  | none =>
    cases hut : Upload w.uploadThumbnail (Optimize.convertedThumbnailPath w req) with
    | some e =>
      simp only [huv, hut, Run.finish, List.mem_append, List.mem_singleton,
        Step.upload.injEq] at h
      rcases h with (h | ⟨_, h, _⟩) | ⟨_, h, _⟩
      · exact Or.inl h
      · exact Or.inr (Or.inl h)
      · exact Or.inr (Or.inr h)
    | none =>
      simp only [huv, hut] at h
      have h2 := Optimize.describe_upload w req defers _ fs p k c h
      simp only [List.mem_append, List.mem_singleton, Step.upload.injEq] at h2
      rcases h2 with (h | ⟨_, h, _⟩) | ⟨_, h, _⟩
      · exact Or.inl h
      · exact Or.inr (Or.inl h)
      · exact Or.inr (Or.inr h)

/-- Every upload a run of `Optimize` performs is under the key of the optimized video
or under the key of the converted thumbnail. -/
theorem Optimize.upload_key (w : OptimizeWorld) (fs : Files) (req : OptimizeRequest)
    (p k c : String) (h : Step.upload p k c ∈ (Optimize w fs (.ok req)).trace) :
    k = Optimize.optimizedFileName w req ∨ k = Optimize.convertedThumbnailFileName w req := by
  unfold Optimize at h
  simp only at h
  split at h
  · simp [Run.finish] at h
  · revert h
    rcases Download w.download (Optimize.inputPath w req) fs with ⟨fs1, _ | e1⟩
    · simp only
      rcases runCommand w.transcode "ffmpeg" _ fs1 with ⟨fs2, _ | e2⟩
      · simp only
        rcases runCommand w.thumbnail "ffmpeg" _ fs2 with ⟨fs3, _ | e3⟩
        · simp only
          rcases runCommand w.convertThumbnail "ffmpeg" _ fs3 with ⟨fs4, _ | e4⟩
          · simp only
            intro h
            rcases Optimize.deliver_upload w req _ _ fs4 p k c h with h2 | h2
            · simp at h2
            · exact h2
          · simp [Run.finish]
        · simp [Run.finish]
      · simp [Run.finish]
    · simp [Run.finish]

theorem isUUIDString_length (s : String) (h : isUUIDString s = true) : s.data.length = 36 := by
  unfold isUUIDString at h
  simp only [Bool.and_eq_true, decide_eq_true_eq] at h
  exact h.1

/-- Two names built from the same stem and from different uuid suffixes differ,
whatever follows the suffix. -/
theorem suffixed_name_ne (stem s1 s2 x y : String) (h1 : s1.data.length = 36)
    (h2 : s2.data.length = 36) (hne : s1 ≠ s2) :
    stem ++ "_" ++ s1 ++ x ≠ stem ++ "_" ++ s2 ++ y := by
  intro h
  apply hne
  have hd := congrArg String.data h
  simp only [String.data_append, List.append_assoc] at hd
  have hd2 := List.append_cancel_left (List.append_cancel_left hd)
  exact String.ext (List.append_inj hd2 (by rw [h1, h2])).1

/-- C10: two runs of `Optimize` on the same source key, with any options, whose
suffixes are distinct uuid strings produce distinct remote keys: the two video
keys differ, the two converted-thumbnail keys differ, no video key of one run is
a thumbnail key of the other, and a key `k1` the first run uploads under differs
from a key `k2` the second run uploads under. -/
theorem Optimize_remote_keys_distinct (w1 w2 : OptimizeWorld) (fs1 fs2 : Files)
    (req1 req2 : OptimizeRequest) (p1 k1 c1 p2 k2 c2 : String)
    (hsame : req1.Filename = req2.Filename)
    (hu1 : isUUIDString w1.suffix = true) (hu2 : isUUIDString w2.suffix = true)
    (hne : w1.suffix ≠ w2.suffix)
    (hup1 : Step.upload p1 k1 c1 ∈ (Optimize w1 fs1 (.ok req1)).trace)
    (hup2 : Step.upload p2 k2 c2 ∈ (Optimize w2 fs2 (.ok req2)).trace) :
    Optimize.optimizedFileName w1 req1 ≠ Optimize.optimizedFileName w2 req2 ∧
      Optimize.convertedThumbnailFileName w1 req1 ≠
        Optimize.convertedThumbnailFileName w2 req2 ∧
      Optimize.optimizedFileName w1 req1 ≠ Optimize.convertedThumbnailFileName w2 req2 ∧
      Optimize.convertedThumbnailFileName w1 req1 ≠ Optimize.optimizedFileName w2 req2 ∧
      k1 ≠ k2 := by
  have hl1 := isUUIDString_length _ hu1
  have hl2 := isUUIDString_length _ hu2
  have hstem : Optimize.filename req1 = Optimize.filename req2 := by
    unfold Optimize.filename
    rw [hsame]
  have hvv : Optimize.optimizedFileName w1 req1 ≠ Optimize.optimizedFileName w2 req2 := by
    unfold Optimize.optimizedFileName
    rw [hstem, String.append_assoc _ "." _, String.append_assoc _ "." _]
    exact suffixed_name_ne _ _ _ _ _ hl1 hl2 hne
  have htt : Optimize.convertedThumbnailFileName w1 req1 ≠
      Optimize.convertedThumbnailFileName w2 req2 := by
    unfold Optimize.convertedThumbnailFileName
    rw [hstem]
    exact suffixed_name_ne _ _ _ _ _ hl1 hl2 hne
  have hvt : Optimize.optimizedFileName w1 req1 ≠
      Optimize.convertedThumbnailFileName w2 req2 := by
    unfold Optimize.optimizedFileName Optimize.convertedThumbnailFileName
    rw [hstem, String.append_assoc _ "." _]
    exact suffixed_name_ne _ _ _ _ _ hl1 hl2 hne
  have htv : Optimize.convertedThumbnailFileName w1 req1 ≠
      Optimize.optimizedFileName w2 req2 := by
    unfold Optimize.optimizedFileName Optimize.convertedThumbnailFileName
    rw [hstem, String.append_assoc _ "." _]
    exact suffixed_name_ne _ _ _ _ _ hl1 hl2 hne
  refine ⟨hvv, htt, hvt, htv, ?_⟩
  rcases Optimize.upload_key w1 fs1 req1 p1 k1 c1 hup1 with rfl | rfl <;>
    rcases Optimize.upload_key w2 fs2 req2 p2 k2 c2 hup2 with rfl | rfl <;>
    assumption

/-- C10, for the source key `clip.mp4` optimized once to webm and once to mp4: the
video key of the first run against the thumbnail key of the second. -/
theorem Optimize_remote_keys_distinct_clip :
    Optimize.optimizedFileName happyWorld ⟨"clip.mp4", []⟩ ≠
        Optimize.optimizedFileName otherHappyWorld ⟨"clip.mp4", [("format", "mp4")]⟩ ∧
      Optimize.convertedThumbnailFileName happyWorld ⟨"clip.mp4", []⟩ ≠
        Optimize.convertedThumbnailFileName otherHappyWorld
          ⟨"clip.mp4", [("format", "mp4")]⟩ ∧
      Optimize.optimizedFileName happyWorld ⟨"clip.mp4", []⟩ ≠
        Optimize.convertedThumbnailFileName otherHappyWorld
          ⟨"clip.mp4", [("format", "mp4")]⟩ ∧
      Optimize.convertedThumbnailFileName happyWorld ⟨"clip.mp4", []⟩ ≠
        Optimize.optimizedFileName otherHappyWorld ⟨"clip.mp4", [("format", "mp4")]⟩ ∧
      "clip_123e4567-e89b-42d3-a456-426614174000.webm" ≠
        "clip_9b2f6c1e-0d4a-4e7b-8c3d-5a6f7e8d9c0b_thumbnail_converted.png" :=
  Optimize_remote_keys_distinct happyWorld otherHappyWorld [] []
    ⟨"clip.mp4", []⟩ ⟨"clip.mp4", [("format", "mp4")]⟩
    "/tmp/clip_123e4567-e89b-42d3-a456-426614174000.webm"
    "clip_123e4567-e89b-42d3-a456-426614174000.webm" "video/webm"
    "/tmp/clip_9b2f6c1e-0d4a-4e7b-8c3d-5a6f7e8d9c0b_thumbnail_converted.png"
    "clip_9b2f6c1e-0d4a-4e7b-8c3d-5a6f7e8d9c0b_thumbnail_converted.png" "image/png"
    (by decide) (by decide) (by decide) (by decide) (by decide) (by decide)


/-! ## Lemmas on the parsing of dimensions -/

theorem splitChars_ne_nil (sep : Char) (l : List Char) : splitChars sep l ≠ [] := by
  cases l with
  | nil => simp [splitChars]
  | cons c cs =>
    unfold splitChars
    split
    · simp
    · split <;> simp

theorem splitChars_cons_sep (sep : Char) (cs : List Char) :
    splitChars sep (sep :: cs) = [] :: splitChars sep cs := by
  simp [splitChars]

theorem splitChars_cons_ne (sep c : Char) (cs : List Char) (hc : c ≠ sep) :
    ∃ p ps, splitChars sep cs = p :: ps ∧ splitChars sep (c :: cs) = (c :: p) :: ps := by
  cases hs : splitChars sep cs with
  | nil => exact absurd hs (splitChars_ne_nil sep cs)
  | cons p ps => exact ⟨p, ps, rfl, by simp [splitChars, hc, hs]⟩

theorem splitChars_single (sep : Char) (l a : List Char) :
    splitChars sep l = [a] ↔ l = a ∧ sep ∉ a := by
  induction l generalizing a with
  | nil =>
    constructor
    · intro h
      have : a = [] := by simpa [splitChars] using h.symm
      subst this
      simp
    · rintro ⟨rfl, _⟩
      rfl
  | cons c cs ih =>
    by_cases hc : c = sep
    · subst hc
      rw [splitChars_cons_sep]
      constructor
      · intro h
        simp only [List.cons.injEq] at h
        exact absurd h.2 (splitChars_ne_nil c cs)
      · rintro ⟨rfl, h⟩
        exact absurd (List.mem_cons_self c cs) h
    · obtain ⟨p, ps, hs, hcons⟩ := splitChars_cons_ne sep c cs hc
      rw [hcons]
      constructor
      · intro h
        simp only [List.cons.injEq] at h
        obtain ⟨rfl, rfl⟩ := h
        obtain ⟨rfl, hp⟩ := (ih p).1 hs
        refine ⟨rfl, ?_⟩
        intro hmem
        rcases List.mem_cons.1 hmem with h1 | h1
        · exact hc h1.symm
        · exact hp h1
      · rintro ⟨rfl, h⟩
        have hcs : sep ∉ cs := fun e => h (List.mem_cons_of_mem _ e)
        have := (ih cs).2 ⟨rfl, hcs⟩
        rw [hs] at this
        simp only [List.cons.injEq] at this
        obtain ⟨rfl, rfl⟩ := this
        rfl

theorem splitChars_pair (sep : Char) (l a b : List Char) :
    splitChars sep l = [a, b] ↔ l = a ++ sep :: b ∧ sep ∉ a ∧ sep ∉ b := by
  induction l generalizing a with
  | nil => simp [splitChars]
  | cons c cs ih =>
    by_cases hc : c = sep
    · subst hc
      rw [splitChars_cons_sep]
      constructor
      · intro h
        simp only [List.cons.injEq] at h
        obtain ⟨rfl, h2⟩ := h
        obtain ⟨rfl, hb⟩ := (splitChars_single c cs b).1 h2
        exact ⟨rfl, by simp, hb⟩
      · rintro ⟨h1, ha, hb⟩
        cases a with
        | nil =>
          simp only [List.nil_append, List.cons.injEq, true_and] at h1
          subst h1
          rw [(splitChars_single c cs cs).2 ⟨rfl, hb⟩]
        | cons x xs =>
          simp only [List.cons_append, List.cons.injEq] at h1
          exact absurd (by rw [h1.1]; exact List.mem_cons_self x xs) ha
    · obtain ⟨p, ps, hs, hcons⟩ := splitChars_cons_ne sep c cs hc
      rw [hcons]
      constructor
      · intro h
        simp only [List.cons.injEq] at h
        obtain ⟨rfl, rfl⟩ := h
        obtain ⟨rfl, hp, hb⟩ := (ih p).1 hs
        refine ⟨rfl, ?_, hb⟩
        intro hmem
        rcases List.mem_cons.1 hmem with h1 | h1
        · exact hc h1.symm
        · exact hp h1
      · rintro ⟨h1, ha, hb⟩
        cases a with
        | nil =>
          simp only [List.nil_append, List.cons.injEq] at h1
          exact absurd h1.1 hc
        | cons x xs =>
          simp only [List.cons_append, List.cons.injEq] at h1
          obtain ⟨rfl, rfl⟩ := h1
          have hxs : sep ∉ xs := fun e => ha (List.mem_cons_of_mem _ e)
          have := (ih xs).2 ⟨rfl, hxs, hb⟩
          rw [hs] at this
          simp only [List.cons.injEq] at this
          obtain ⟨rfl, rfl⟩ := this
          rfl

theorem isDigit_ne_x (c : Char) (hc : isDigit c = true) : c ≠ 'x' := by
  rintro rfl; revert hc; decide

theorem Atoi_some_no_x (s : String) (v : Int) (h : Atoi s = some v) : 'x' ∉ s.data := by
  obtain ⟨sign, ds, hsign, _, hd, hdata⟩ := Atoi_some_form s v h
  rw [hdata]
  intro hmem
  rcases List.mem_append.1 hmem with h1 | h1
  · rcases hsign with rfl | rfl | rfl
    · simp at h1
    · simp at h1
    · simp at h1
  · exact isDigit_ne_x _ (List.all_eq_true.1 hd _ h1) rfl

theorem Split_pair (s p0 p1 : String) :
    Split s 'x' = [p0, p1] ↔
      s = p0 ++ "x" ++ p1 ∧ 'x' ∉ p0.data ∧ 'x' ∉ p1.data := by
  unfold Split
  have hmk : ∀ (l : List (List Char)), l.map String.mk = [p0, p1] ↔ l = [p0.data, p1.data] := by
    intro l
    constructor
    · intro h
      have h2 := congrArg (List.map String.data) h
      simpa [List.map_map, Function.comp_def] using h2
    · rintro rfl
      rfl
  rw [hmk, splitChars_pair]
  constructor
  · rintro ⟨h1, h2, h3⟩
    refine ⟨String.ext ?_, h2, h3⟩
    rw [h1]
    simp [String.data_append]
  · rintro ⟨h1, h2, h3⟩
    refine ⟨?_, h2, h3⟩
    rw [h1]
    simp [String.data_append]

/-- C13: on the output text of ffprobe, the parsing step of `getVideoDimensions`
returns width, height and no error exactly when the text, trimmed of white
space, splits on `x` into exactly two parts that `strconv.Atoi` parses, the first
as the width and the second as the height; that is the case exactly when the
trimmed text is the two numerals joined by one `x`.  The step succeeds for no
other text, and whenever it fails it returns width 0 and height 0 with the
error. -/
theorem parseVideoDimensions_iff_two_integers (output : String) (width height : Int) :
    (parseVideoDimensions output = (width, height, none) ↔
        ∃ p0 p1 : String, Split (TrimSpace output) 'x' = [p0, p1] ∧
          Atoi p0 = some width ∧ Atoi p1 = some height) ∧
      ((∃ p0 p1 : String, Split (TrimSpace output) 'x' = [p0, p1] ∧
          Atoi p0 = some width ∧ Atoi p1 = some height) ↔
        ∃ p0 p1 : String, TrimSpace output = p0 ++ "x" ++ p1 ∧
          Atoi p0 = some width ∧ Atoi p1 = some height) ∧
      ((parseVideoDimensions output).2.2 = none ↔
        ∃ (p0 p1 : String) (w h : Int), Split (TrimSpace output) 'x' = [p0, p1] ∧
          Atoi p0 = some w ∧ Atoi p1 = some h) ∧
      ((parseVideoDimensions output).2.2 ≠ none →
        (parseVideoDimensions output).1 = 0 ∧ (parseVideoDimensions output).2.1 = 0) ∧
      getVideoDimensions (.ok output) = parseVideoDimensions output := by
  refine ⟨?_, ?_, ?_, ?_, rfl⟩
  · unfold parseVideoDimensions
    simp only
    rcases hS : Split (TrimSpace output) 'x' with _ | ⟨q0, _ | ⟨q1, _ | ⟨q2, rest⟩⟩⟩
    · simp
    · simp
    · cases h0 : Atoi q0 with
      | none => simp [h0]
      | some w =>
        cases h1 : Atoi q1 with
        | none => simp [h0, h1]
        | some h =>
          simp only [h0, h1, Prod.mk.injEq, and_true, List.cons.injEq]
          constructor
          · rintro ⟨rfl, rfl⟩
            exact ⟨q0, q1, ⟨rfl, rfl⟩, h0, h1⟩
          · rintro ⟨p0, p1, ⟨rfl, rfl⟩, hp0, hp1⟩
            rw [h0] at hp0
            rw [h1] at hp1
            exact ⟨Option.some.inj hp0, Option.some.inj hp1⟩
    · simp
  · constructor
    · rintro ⟨p0, p1, hs, h0, h1⟩
      exact ⟨p0, p1, ((Split_pair _ _ _).1 hs).1, h0, h1⟩
    · rintro ⟨p0, p1, hs, h0, h1⟩
      exact ⟨p0, p1, (Split_pair _ _ _).2 ⟨hs, Atoi_some_no_x _ _ h0, Atoi_some_no_x _ _ h1⟩,
        h0, h1⟩
  · unfold parseVideoDimensions
    simp only
    rcases hS : Split (TrimSpace output) 'x' with _ | ⟨q0, _ | ⟨q1, _ | ⟨q2, rest⟩⟩⟩
    · simp
    · simp
    · cases h0 : Atoi q0 with
      | none => simp [h0]
      | some w =>
        cases h1 : Atoi q1 with
        | none => simp [h0, h1]
        | some h =>
          simp only [h0, h1, true_iff]
          exact ⟨q0, q1, w, h, rfl, h0, h1⟩
    · simp
  · unfold parseVideoDimensions
    simp only
    rcases hS : Split (TrimSpace output) 'x' with _ | ⟨q0, _ | ⟨q1, _ | ⟨q2, rest⟩⟩⟩
    · simp
    · simp
    · cases h0 : Atoi q0 with
      | none => simp [h0]
      | some w =>
        cases h1 : Atoi q1 with
        | none => simp [h0, h1]
        | some h => simp [h0, h1]
    · simp

/-- C13, on the output `1280x720` followed by a newline. -/
theorem parseVideoDimensions_iff_two_integers_720p :
    parseVideoDimensions "1280x720\n" = (1280, 720, none) :=
  (parseVideoDimensions_iff_two_integers "1280x720\n" 1280 720).1.2
    ⟨"1280", "720", by decide, by decide, by decide⟩


/-! ## The run of `Optimize`, stage by stage -/

theorem runCommand_of_err_none (c : CommandRun) (name : String) (args : List String)
    (fs : Files) (h : c.err = none) :
    runCommand c name args fs =
      (if c.wroteOutput then fs.create (args.getLastD "") else fs, none) := by
  simp [runCommand, h]

theorem runCommand_of_err_some (c : CommandRun) (name : String) (args : List String)
    (fs : Files) (e : String) (h : c.err = some e) :
    runCommand c name args fs =
      (if c.wroteOutput then fs.create (args.getLastD "") else fs,
        some ("command " ++ name ++ " failed: " ++ e)) := by
  simp [runCommand, h]

/-- The error of `s3.Download`, read off the three outcomes of the world; it does not
depend on the files on disk. -/
theorem Download_snd (d : DownloadRun) (filePath : String) (fs : Files) :
    (Download d filePath fs).2 =
      (match d.getObject with
        | some e => some ("failed to get object from S3: " ++ e)
        | none =>
          match d.create with
          | some e => some ("error creating file: " ++ PathError "open" filePath e)
          | none =>
            match d.copy with
            | some e => some ("error saving file: " ++ e)
            | none => none) := by
  unfold Download
  cases d.getObject <;> cases d.create <;> cases d.copy <;> rfl

/-- When the download fails, `Optimize` answers 500 after the download alone. -/
theorem Optimize.run_download_failed (w : OptimizeWorld) (fs : Files) (req : OptimizeRequest)
    (e : String) (hne : req.Filename ≠ "")
    (hd : (Download w.download (Optimize.inputPath w req) fs).2 = some e) :
    (Optimize w fs (.ok req)).response =
        .error 500 ("failed to download \"" ++ filepathBase req.Filename ++ "\" from S3: " ++ e) ∧
      (Optimize w fs (.ok req)).trace =
        [Step.download (filepathBase req.Filename) (Optimize.inputPath w req)] := by
  unfold Optimize
  simp only [hne, if_false]
  rcases hdl : Download w.download (Optimize.inputPath w req) fs with ⟨fs1, e1⟩
  rw [hdl] at hd
  simp only at hd
  subst hd
  exact ⟨rfl, rfl⟩

theorem Optimize.run_transcode_failed (w : OptimizeWorld) (fs : Files) (req : OptimizeRequest)
    (e : String) (hne : req.Filename ≠ "")
    (hd : (Download w.download (Optimize.inputPath w req) fs).2 = none)
    (htr : w.transcode.err = some e) :
    (Optimize w fs (.ok req)).response =
        .error 500 ("video optimization failed: " ++ ("command " ++ "ffmpeg" ++ " failed: " ++ e)) ∧
      (Optimize w fs (.ok req)).trace =
        [Step.download (filepathBase req.Filename) (Optimize.inputPath w req),
          Step.ffmpeg (Optimize.args req (Optimize.inputPath w req)
            (Optimize.optimizedPath w req))] := by
  unfold Optimize
  simp only [hne, if_false]
  rcases hdl : Download w.download (Optimize.inputPath w req) fs with ⟨fs1, e1⟩
  rw [hdl] at hd
  simp only at hd
  subst hd
  simp only [runCommand_of_err_some _ _ _ _ e htr]
  exact ⟨rfl, rfl⟩

theorem Optimize.run_thumbnail_failed (w : OptimizeWorld) (fs : Files) (req : OptimizeRequest)
    (e : String) (hne : req.Filename ≠ "")
    (hd : (Download w.download (Optimize.inputPath w req) fs).2 = none)
    (htr : w.transcode.err = none) (hth : w.thumbnail.err = some e) :
    (Optimize w fs (.ok req)).response =
        .error 500 ("thumbnail generation failed: " ++ ("command " ++ "ffmpeg" ++ " failed: " ++ e)) ∧
      (Optimize w fs (.ok req)).trace =
        [Step.download (filepathBase req.Filename) (Optimize.inputPath w req),
          Step.ffmpeg (Optimize.args req (Optimize.inputPath w req)
            (Optimize.optimizedPath w req)),
          Step.ffmpeg (thumbArgs (Optimize.inputPath w req) (Optimize.thumbnailPath w req))] := by
  unfold Optimize
  simp only [hne, if_false]
  rcases hdl : Download w.download (Optimize.inputPath w req) fs with ⟨fs1, e1⟩
  rw [hdl] at hd
  simp only at hd
  subst hd
  simp only [runCommand_of_err_none _ _ _ _ htr, runCommand_of_err_some _ _ _ _ e hth]
  exact ⟨rfl, rfl⟩

theorem Optimize.run_convert_failed (w : OptimizeWorld) (fs : Files) (req : OptimizeRequest)
    (e : String) (hne : req.Filename ≠ "")
    (hd : (Download w.download (Optimize.inputPath w req) fs).2 = none)
    (htr : w.transcode.err = none) (hth : w.thumbnail.err = none)
    (hcv : w.convertThumbnail.err = some e) :
    (Optimize w fs (.ok req)).response =
        .error 500 ("thumbnail conversion failed: " ++ ("command " ++ "ffmpeg" ++ " failed: " ++ e)) ∧
      (Optimize w fs (.ok req)).trace =
        [Step.download (filepathBase req.Filename) (Optimize.inputPath w req),
          Step.ffmpeg (Optimize.args req (Optimize.inputPath w req)
            (Optimize.optimizedPath w req)),
          Step.ffmpeg (thumbArgs (Optimize.inputPath w req) (Optimize.thumbnailPath w req)),
          Step.ffmpeg (convertArgs (Optimize.thumbnailPath w req)
            (Optimize.convertedThumbnailPath w req))] := by
  unfold Optimize
  simp only [hne, if_false]
  rcases hdl : Download w.download (Optimize.inputPath w req) fs with ⟨fs1, e1⟩
  rw [hdl] at hd
  simp only at hd
  subst hd
  simp only [runCommand_of_err_none _ _ _ _ htr, runCommand_of_err_none _ _ _ _ hth,
    runCommand_of_err_some _ _ _ _ e hcv]
  exact ⟨rfl, rfl⟩

/-- When the download and the three commands succeed, `Optimize` goes on to the
uploads with the four deferred removals and the four steps performed so far. -/
theorem Optimize.run_tools_ok (w : OptimizeWorld) (fs : Files) (req : OptimizeRequest)
    (hne : req.Filename ≠ "")
    (hd : (Download w.download (Optimize.inputPath w req) fs).2 = none)
    (htr : w.transcode.err = none) (hth : w.thumbnail.err = none)
    (hcv : w.convertThumbnail.err = none) :
    ∃ fs4, Optimize w fs (.ok req) =
      Optimize.deliver w req
        [Optimize.convertedThumbnailPath w req, Optimize.thumbnailPath w req,
          Optimize.optimizedPath w req, Optimize.inputPath w req]
        [Step.download (filepathBase req.Filename) (Optimize.inputPath w req),
          Step.ffmpeg (Optimize.args req (Optimize.inputPath w req)
            (Optimize.optimizedPath w req)),
          Step.ffmpeg (thumbArgs (Optimize.inputPath w req) (Optimize.thumbnailPath w req)),
          Step.ffmpeg (convertArgs (Optimize.thumbnailPath w req)
            (Optimize.convertedThumbnailPath w req))] fs4 := by
  unfold Optimize
  simp only [hne, if_false]
  rcases hdl : Download w.download (Optimize.inputPath w req) fs with ⟨fs1, e1⟩
  rw [hdl] at hd
  simp only at hd
  subst hd
  simp only [runCommand_of_err_none _ _ _ _ htr, runCommand_of_err_none _ _ _ _ hth,
    runCommand_of_err_none _ _ _ _ hcv]
  exact ⟨_, rfl⟩


theorem ThumbnailHandler.run_upload_ok (w : ThumbnailWorld) (fs : Files) (req : ThumbnailRequest)
    (hne : req.Filename ≠ "")
    (hd : (Download w.download (ThumbnailHandler.inputPath w req) fs).2 = none)
    (hth : w.thumbnail.err = none) (hup : Upload w.upload (ThumbnailHandler.thumbnailPath w req) = none) :
    (ThumbnailHandler w fs (.ok req)).response =
      (match w.stat with
        | .error e =>
          .error 500
            ("failed to get thumbnail file info: " ++
              PathError "stat" (ThumbnailHandler.thumbnailPath w req) e)
        | .ok thumbFilesize =>
          .ok
            { Filename := ThumbnailHandler.thumbnailFileName req
              Filesize := thumbFilesize
              Height := if (getImageDimensions w.decode).2.2.isSome then 0
                else (getImageDimensions w.decode).2.1
              Width := if (getImageDimensions w.decode).2.2.isSome then 0
                else (getImageDimensions w.decode).1
              MimeType := "image/png" }) := by
  unfold ThumbnailHandler
  simp only [hne, if_false]
  rcases hdl : Download w.download (ThumbnailHandler.inputPath w req) fs with ⟨fs1, e1⟩
  rw [hdl] at hd
  simp only at hd
  subst hd
  simp only [runCommand_of_err_none _ _ _ _ hth, hup]
  cases w.stat <;> rfl

/-- C12: in a run of `Optimize` whose download, three commands and two uploads
succeed, a failure to read the size of the optimized video or of the converted
thumbnail gives a 500 response; when both sizes are read the response is a success
whatever the dimension probes return, with the keys, sizes and MIME types fixed by
the run, and an artifact whose dimension probe fails is reported with width 0 and
height 0 (otherwise with the probed dimensions).  The same holds for `Thumbnail`
with its one artifact, once its download, command and upload succeed. -/
theorem Optimize_size_fatal_dimensions_optional (w : OptimizeWorld) (fs : Files)
    (req : OptimizeRequest) (videoSize thumbSize : Int)
    (tw : ThumbnailWorld) (tfs : Files) (treq : ThumbnailRequest) (tsize : Int)
    (hne : req.Filename ≠ "")
    (hd : (Download w.download (Optimize.inputPath w req) fs).2 = none)
    (htr : w.transcode.err = none) (hth : w.thumbnail.err = none)
    (hcv : w.convertThumbnail.err = none)
    (huv : Upload w.uploadVideo (Optimize.optimizedPath w req) = none) (hut : Upload w.uploadThumbnail (Optimize.convertedThumbnailPath w req) = none)
    (tne : treq.Filename ≠ "")
    (thd : (Download tw.download (ThumbnailHandler.inputPath tw treq) tfs).2 = none)
    (tth : tw.thumbnail.err = none) (tup : Upload tw.upload (ThumbnailHandler.thumbnailPath tw treq) = none) :
    (w.statVideo.toOption = none ∨ w.statThumbnail.toOption = none →
        (Optimize w fs (.ok req)).response.status = 500 ∧
          ∃ message, (Optimize w fs (.ok req)).response = .error 500 message) ∧
      (w.statVideo = .ok videoSize → w.statThumbnail = .ok thumbSize →
        ∃ videoWidth videoHeight thumbWidth thumbHeight,
          (Optimize w fs (.ok req)).response =
            .ok
              { OptimizedVideo :=
                  { Filename := Optimize.optimizedFileName w req
                    Filesize := videoSize
                    Height := videoHeight
                    Width := videoWidth
                    MimeType := "video/" ++ Optimize.format req }
                Thumbnail :=
                  { Filename := Optimize.convertedThumbnailFileName w req
                    Filesize := thumbSize
                    Height := thumbHeight
                    Width := thumbWidth
                    MimeType := "image/png" } } ∧
          ((getVideoDimensions w.probeVideo).2.2 ≠ none → videoWidth = 0 ∧ videoHeight = 0) ∧
          ((getVideoDimensions w.probeVideo).2.2 = none →
            videoWidth = (getVideoDimensions w.probeVideo).1 ∧
              videoHeight = (getVideoDimensions w.probeVideo).2.1) ∧
          ((getImageDimensions w.decodeThumbnail).2.2 ≠ none →
            thumbWidth = 0 ∧ thumbHeight = 0) ∧
          ((getImageDimensions w.decodeThumbnail).2.2 = none →
            thumbWidth = (getImageDimensions w.decodeThumbnail).1 ∧
              thumbHeight = (getImageDimensions w.decodeThumbnail).2.1)) ∧
      (tw.stat.toOption = none →
        (ThumbnailHandler tw tfs (.ok treq)).response.status = 500 ∧
          ∃ message, (ThumbnailHandler tw tfs (.ok treq)).response = .error 500 message) ∧
      (tw.stat = .ok tsize →
        ∃ width height,
          (ThumbnailHandler tw tfs (.ok treq)).response =
            .ok
              { Filename := ThumbnailHandler.thumbnailFileName treq
                Filesize := tsize
                Height := height
                Width := width
                MimeType := "image/png" } ∧
          ((getImageDimensions tw.decode).2.2 ≠ none → width = 0 ∧ height = 0) ∧
          ((getImageDimensions tw.decode).2.2 = none →
            width = (getImageDimensions tw.decode).1 ∧
              height = (getImageDimensions tw.decode).2.1)) := by
  obtain ⟨fs4, hrun⟩ := Optimize.run_tools_ok w fs req hne hd htr hth hcv
  have ht := ThumbnailHandler.run_upload_ok tw tfs treq tne thd tth tup
  refine ⟨?_, ?_, ?_, ?_⟩
  · intro hfail
    rw [hrun]
    unfold Optimize.deliver Optimize.describe
    simp only [huv, hut]
    cases hsv : w.statVideo with
    | error e => exact ⟨rfl, _, rfl⟩
    | ok n =>
      cases hst : w.statThumbnail with
      | error e => exact ⟨rfl, _, rfl⟩
      | ok m => simp [hsv, hst, Except.toOption] at hfail
  · intro hsv hst
    rw [hrun]
    unfold Optimize.deliver Optimize.describe
    simp only [huv, hut, hsv, hst, Run.finish]
    refine ⟨_, _, _, _, rfl, ?_, ?_, ?_, ?_⟩
    · intro h
      have : (getVideoDimensions w.probeVideo).2.2.isSome = true := by
        cases hh : (getVideoDimensions w.probeVideo).2.2 with
        | none => exact absurd hh h
        | some e => rfl
      simp [this]
    · intro h
      simp [h]
    · intro h
      have : (getImageDimensions w.decodeThumbnail).2.2.isSome = true := by
        cases hh : (getImageDimensions w.decodeThumbnail).2.2 with
        | none => exact absurd hh h
        | some e => rfl
      simp [this]
    · intro h
      simp [h]
  · intro hfail
    rw [ht]
    cases hs : tw.stat with
    | error e => exact ⟨rfl, _, rfl⟩
    | ok n => simp [hs, Except.toOption] at hfail
  · intro hs
    rw [ht, hs]
    refine ⟨_, _, rfl, ?_, ?_⟩
    · intro h
      have : (getImageDimensions tw.decode).2.2.isSome = true := by
        cases hh : (getImageDimensions tw.decode).2.2 with
        | none => exact absurd hh h
        | some e => rfl
      simp [this]
    · intro h
      simp [h]

/-- C12, for `clip.mp4` when every fatal step succeeds and every dimension probe
fails: both handlers answer with the sizes read and the dimensions 0 by 0. -/
theorem Optimize_size_fatal_dimensions_optional_probes_fail :
    (Optimize probesFailWorld [] (.ok ⟨"clip.mp4", []⟩)).response =
        .ok
          { OptimizedVideo :=
              { Filename := "clip_123e4567-e89b-42d3-a456-426614174000.webm"
                Filesize := 1048576
                Height := 0
                Width := 0
                MimeType := "video/webm" }
            Thumbnail :=
              { Filename := "clip_123e4567-e89b-42d3-a456-426614174000_thumbnail_converted.png"
                Filesize := 20480
                Height := 0
                Width := 0
                MimeType := "image/png" } } ∧
      (ThumbnailHandler probeFailsThumbnailWorld [] (.ok ⟨"clip.mp4"⟩)).response =
        .ok
          { Filename := "clip_thumbnail.png"
            Filesize := 20480
            Height := 0
            Width := 0
            MimeType := "image/png" } := by
  obtain ⟨_, h2, _, h4⟩ := Optimize_size_fatal_dimensions_optional probesFailWorld []
    ⟨"clip.mp4", []⟩ 1048576 20480 probeFailsThumbnailWorld [] ⟨"clip.mp4"⟩ 20480
    (by decide) (by decide) (by decide) (by decide) (by decide) (by decide) (by decide)
    (by decide) (by decide) (by decide) (by decide)
  obtain ⟨vw, vh, tw, th, hr, hv, _, ht, _⟩ := h2 rfl rfl
  obtain ⟨width, height, hr2, hd, _⟩ := h4 rfl
  obtain ⟨rfl, rfl⟩ := hv (by decide)
  obtain ⟨rfl, rfl⟩ := ht (by decide)
  obtain ⟨rfl, rfl⟩ := hd (by decide)
  exact ⟨hr, hr2⟩


/-- C14: a run of `Optimize` with a non-empty source key performs the steps of
`Optimize.steps` (download, transcode, extract the thumbnail frame, convert the
thumbnail, upload the video, upload the thumbnail, stat the video, probe the video,
stat the thumbnail, probe the thumbnail) in order, up to and including the first
step that fails fatally and none after it, or all ten when none does; the
response is 500 exactly when a step failed fatally.  So a tool runs only after a
successful download, an upload only after the three commands succeeded, and the
thumbnail upload only after the video upload succeeded.  With an empty source key
the response is 400 and no external step runs. -/
theorem Optimize_steps_stop_at_first_fatal (w : OptimizeWorld) (fs : Files)
    (req : OptimizeRequest) (options : List (String × String))
    (hne : req.Filename ≠ "") :
    (Optimize w fs (.ok req)).trace =
        (Optimize.steps w req).take ((Optimize.fatal w fs req).findIdx (fun b => b) + 1) ∧
      ((Optimize w fs (.ok req)).response.status =
        if (Optimize.fatal w fs req).any (fun b => b) then 500 else 200) ∧
      ((Optimize w fs (.ok req)).trace.any Step.isTool = true →
        (Download w.download (Optimize.inputPath w req) fs).2 = none) ∧
      ((Optimize w fs (.ok req)).trace.any Step.isUpload = true →
        (Download w.download (Optimize.inputPath w req) fs).2 = none ∧
          w.transcode.err = none ∧ w.thumbnail.err = none ∧
          w.convertThumbnail.err = none) ∧
      (1 < ((Optimize w fs (.ok req)).trace.filter Step.isUpload).length →
        Upload w.uploadVideo (Optimize.optimizedPath w req) = none) ∧
      (Optimize w fs (.ok ⟨"", options⟩)).response = .error 400 "filename is required" ∧
      (Optimize w fs (.ok ⟨"", options⟩)).trace = [] := by
  refine ⟨?_, ?_, ?_, ?_, ?_, by simp [Optimize, Run.finish], by simp [Optimize, Run.finish]⟩
  all_goals
    cases hd : (Download w.download (Optimize.inputPath w req) fs).2 with
    | some e =>
      obtain ⟨h1, h2⟩ := Optimize.run_download_failed w fs req e hne hd
      simp [h1, h2, Optimize.fatal, Optimize.steps, hd, List.findIdx_cons, Response.status,
        Step.isTool, Step.isUpload]
    | none =>
      cases htr : w.transcode.err with
      | some e =>
        obtain ⟨h1, h2⟩ := Optimize.run_transcode_failed w fs req e hne hd htr
        simp [h1, h2, Optimize.fatal, Optimize.steps, hd, htr, List.findIdx_cons,
          Response.status, Step.isTool, Step.isUpload]
      | none =>
        cases hth : w.thumbnail.err with
        | some e =>
          obtain ⟨h1, h2⟩ := Optimize.run_thumbnail_failed w fs req e hne hd htr hth
          simp [h1, h2, Optimize.fatal, Optimize.steps, hd, htr, hth, List.findIdx_cons,
            Response.status, Step.isTool, Step.isUpload]
        | none =>
          cases hcv : w.convertThumbnail.err with
          | some e =>
            obtain ⟨h1, h2⟩ := Optimize.run_convert_failed w fs req e hne hd htr hth hcv
            simp [h1, h2, Optimize.fatal, Optimize.steps, hd, htr, hth, hcv,
              List.findIdx_cons, Response.status, Step.isTool, Step.isUpload]
          | none =>
            obtain ⟨fs4, hrun⟩ := Optimize.run_tools_ok w fs req hne hd htr hth hcv
            rw [hrun]
            unfold Optimize.deliver Optimize.describe
            cases huv : Upload w.uploadVideo (Optimize.optimizedPath w req) with
            | some e =>
              simp [Optimize.fatal, Optimize.steps, hd, htr, hth, hcv, huv,
                List.findIdx_cons, Response.status, Step.isTool, Step.isUpload, Run.finish]
            | none =>
              cases hut : Upload w.uploadThumbnail (Optimize.convertedThumbnailPath w req) with
              | some e =>
                simp [Optimize.fatal, Optimize.steps, hd, htr, hth, hcv, huv, hut,
                  List.findIdx_cons, Response.status, Step.isTool, Step.isUpload, Run.finish]
              | none =>
                cases hsv : w.statVideo with
                | error e =>
                  simp [Optimize.fatal, Optimize.steps, hd, htr, hth, hcv, huv, hut, hsv,
                    List.findIdx_cons, Response.status, Step.isTool, Step.isUpload,
                    Run.finish, Except.toOption]
                | ok n =>
                  cases hst : w.statThumbnail with
                  | error e =>
                    simp [Optimize.fatal, Optimize.steps, hd, htr, hth, hcv, huv, hut, hsv,
                      hst, List.findIdx_cons, Response.status, Step.isTool, Step.isUpload,
                      Run.finish, Except.toOption]
                  | ok m =>
                    simp [Optimize.fatal, Optimize.steps, hd, htr, hth, hcv, huv, hut, hsv,
                      hst, List.findIdx_cons, Response.status, Step.isTool, Step.isUpload,
                      Run.finish, Except.toOption]


/-- C14, for `clip.mp4` when the upload of the video fails: the run stops after the
fifth step with a 500 response, and the thumbnail is not uploaded. -/
theorem Optimize_steps_stop_at_first_fatal_upload :
    (Optimize uploadFailsWorld [] (.ok ⟨"clip.mp4", []⟩)).trace =
        [Step.download "clip.mp4" "/tmp/clip.mp4",
          Step.ffmpeg ["-i", "/tmp/clip.mp4", "-c:v", "libvpx-vp9", "-crf", "30", "-b:v", "1M",
            "-c:a", "libopus", "-b:a", "128k", "-y",
            "/tmp/clip_123e4567-e89b-42d3-a456-426614174000.webm"],
          Step.ffmpeg ["-i", "/tmp/clip.mp4", "-ss", "00:00:01", "-vframes", "1", "-y",
            "/tmp/clip_123e4567-e89b-42d3-a456-426614174000_thumbnail.png"],
          Step.ffmpeg ["-i", "/tmp/clip_123e4567-e89b-42d3-a456-426614174000_thumbnail.png",
            "-y", "/tmp/clip_123e4567-e89b-42d3-a456-426614174000_thumbnail_converted.png"],
          Step.upload "/tmp/clip_123e4567-e89b-42d3-a456-426614174000.webm"
            "clip_123e4567-e89b-42d3-a456-426614174000.webm" "video/webm"] ∧
      (Optimize uploadFailsWorld [] (.ok ⟨"clip.mp4", []⟩)).response.status = 500 ∧
      (Optimize uploadFailsWorld [] (.ok ⟨"", []⟩)).response =
        .error 400 "filename is required" ∧
      (Optimize uploadFailsWorld [] (.ok ⟨"", []⟩)).trace = [] := by
  obtain ⟨h1, h2, _, _, _, h6, h7⟩ :=
    Optimize_steps_stop_at_first_fatal uploadFailsWorld [] ⟨"clip.mp4", []⟩ [] (by decide)
  exact ⟨h1, h2, h6, h7⟩

/-! ## The response of a failed run -/

/-- The response `Optimize` gives from the uploads on, read off the outcomes of the
uploads and of the size reads; it does not depend on the deferred removals, on the
steps before or on the files on disk. -/
theorem Optimize.deliver_response (w : OptimizeWorld) (req : OptimizeRequest)
    (defers : List String) (trace : List Step) (fs : Files) :
    (Optimize.deliver w req defers trace fs).response =
      (match w.uploadVideo.osOpen with
        | some e =>
          .error 500 ("failed to upload video: " ++ ("failed to open file for upload: " ++
            PathError "open" (Optimize.optimizedPath w req) e))
        | none =>
          match w.uploadVideo.putObject with
          | some e =>
            .error 500 ("failed to upload video: " ++ ("failed to upload file to S3: " ++ e))
          | none =>
            match w.uploadThumbnail.osOpen with
            | some e =>
              .error 500 ("failed to upload thumbnail: " ++
                ("failed to open file for upload: " ++
                  PathError "open" (Optimize.convertedThumbnailPath w req) e))
            | none =>
              match w.uploadThumbnail.putObject with
              | some e =>
                .error 500
                  ("failed to upload thumbnail: " ++ ("failed to upload file to S3: " ++ e))
              | none =>
                match w.statVideo with
                | .error e =>
                  .error 500 ("failed to get video file info: " ++
                    PathError "stat" (Optimize.optimizedPath w req) e)
                | .ok _ =>
                  match w.statThumbnail with
                  | .error e =>
                    .error 500 ("failed to get thumbnail file info: " ++
                      PathError "stat" (Optimize.convertedThumbnailPath w req) e)
                  | .ok _ => (Optimize.describe w req [] [] []).response) := by
  unfold Optimize.deliver Optimize.describe Upload
  cases w.uploadVideo.osOpen with
  | some e => rfl
  | none =>
    cases w.uploadVideo.putObject with
    | some e => rfl
    | none =>
      cases w.uploadThumbnail.osOpen with
      | some e => rfl
      | none =>
        cases w.uploadThumbnail.putObject with
        | some e => rfl
        | none =>
          cases w.statVideo with
          | error e => rfl
          | ok n =>
            cases w.statThumbnail with
            | error e => rfl
            | ok m => rfl

/-- The response of `Optimize` to a request with a non-empty filename, read off the
outcomes of the steps in order. -/
theorem Optimize.response_eq (w : OptimizeWorld) (fs : Files) (req : OptimizeRequest)
    (hne : req.Filename ≠ "") :
    (Optimize w fs (.ok req)).response =
      (match w.download.getObject with
        | some e =>
          .error 500 ("failed to download \"" ++ filepathBase req.Filename ++ "\" from S3: " ++
            ("failed to get object from S3: " ++ e))
        | none =>
          match w.download.create with
          | some e =>
            .error 500 ("failed to download \"" ++ filepathBase req.Filename ++ "\" from S3: " ++
              ("error creating file: " ++ PathError "open" (Optimize.inputPath w req) e))
          | none =>
            match w.download.copy with
            | some e =>
              .error 500 ("failed to download \"" ++ filepathBase req.Filename ++
                "\" from S3: " ++ ("error saving file: " ++ e))
            | none =>
              match w.transcode.err with
              | some e =>
                .error 500
                  ("video optimization failed: " ++ ("command " ++ "ffmpeg" ++ " failed: " ++ e))
              | none =>
                match w.thumbnail.err with
                | some e =>
                  .error 500 ("thumbnail generation failed: " ++
                    ("command " ++ "ffmpeg" ++ " failed: " ++ e))
                | none =>
                  match w.convertThumbnail.err with
                  | some e =>
                    .error 500 ("thumbnail conversion failed: " ++
                      ("command " ++ "ffmpeg" ++ " failed: " ++ e))
                  | none => (Optimize.deliver w req [] [] []).response) := by
  have hds := Download_snd w.download (Optimize.inputPath w req) fs
  cases hg : w.download.getObject with
  | some e =>
    rw [hg] at hds
    exact (Optimize.run_download_failed w fs req _ hne hds).1
  | none =>
    cases hc : w.download.create with
    | some e =>
      rw [hg, hc] at hds
      exact (Optimize.run_download_failed w fs req _ hne hds).1
    | none =>
      cases hcp : w.download.copy with
      | some e =>
        rw [hg, hc, hcp] at hds
        exact (Optimize.run_download_failed w fs req _ hne hds).1
      | none =>
        rw [hg, hc, hcp] at hds
        have hd : (Download w.download (Optimize.inputPath w req) fs).2 = none := hds
        cases htr : w.transcode.err with
        | some e => exact (Optimize.run_transcode_failed w fs req e hne hd htr).1
        | none =>
          cases hth : w.thumbnail.err with
          | some e => exact (Optimize.run_thumbnail_failed w fs req e hne hd htr hth).1
          | none =>
            cases hcv : w.convertThumbnail.err with
            | some e => exact (Optimize.run_convert_failed w fs req e hne hd htr hth hcv).1
            | none =>
              obtain ⟨fs4, hrun⟩ := Optimize.run_tools_ok w fs req hne hd htr hth hcv
              rw [hrun, Optimize.deliver_response, Optimize.deliver_response]

/-- The response of the handler `Thumbnail` to a request with a non-empty filename,
read off the outcomes of the steps in order. -/
theorem ThumbnailHandler.thumbnail_response_eq (w : ThumbnailWorld) (fs : Files)
    (req : ThumbnailRequest) (hne : req.Filename ≠ "") :
    (ThumbnailHandler w fs (.ok req)).response =
      (match w.download.getObject with
        | some e =>
          .error 500 ("failed to download \"" ++ req.Filename ++ "\" from S3: " ++
            ("failed to get object from S3: " ++ e))
        | none =>
          match w.download.create with
          | some e =>
            .error 500 ("failed to download \"" ++ req.Filename ++ "\" from S3: " ++
              ("error creating file: " ++ PathError "open" (ThumbnailHandler.inputPath w req) e))
          | none =>
            match w.download.copy with
            | some e =>
              .error 500 ("failed to download \"" ++ req.Filename ++ "\" from S3: " ++
                ("error saving file: " ++ e))
            | none =>
              match w.thumbnail.err with
              | some e =>
                .error 500 ("thumbnail generation failed: " ++
                  ("command " ++ "ffmpeg" ++ " failed: " ++ e))
              | none =>
                match w.upload.osOpen with
                | some e =>
                  .error 500 ("failed to upload thumbnail: " ++
                    ("failed to open file for upload: " ++
                      PathError "open" (ThumbnailHandler.thumbnailPath w req) e))
                | none =>
                  match w.upload.putObject with
                  | some e =>
                    .error 500
                      ("failed to upload thumbnail: " ++ ("failed to upload file to S3: " ++ e))
                  | none =>
                    match w.stat with
                    | .error e =>
                      .error 500 ("failed to get thumbnail file info: " ++
                        PathError "stat" (ThumbnailHandler.thumbnailPath w req) e)
                    | .ok thumbFilesize =>
                      .ok
                        { Filename := ThumbnailHandler.thumbnailFileName req
                          Filesize := thumbFilesize
                          Height := if (getImageDimensions w.decode).2.2.isSome then 0
                            else (getImageDimensions w.decode).2.1
                          Width := if (getImageDimensions w.decode).2.2.isSome then 0
                            else (getImageDimensions w.decode).1
                          MimeType := "image/png" }) := by
  unfold ThumbnailHandler
  simp only [hne, if_false]
  unfold Download Upload
  cases w.download.getObject with
  | some e => rfl
  | none =>
    cases w.download.create with
    | some e => rfl
    | none =>
      cases w.download.copy with
      | some e => rfl
      | none =>
        simp only []
        cases hth : w.thumbnail.err with
        | some e =>
          simp only [runCommand_of_err_some _ _ _ _ e hth]
          rfl
        | none =>
          simp only [runCommand_of_err_none _ _ _ _ hth]
          cases w.upload.osOpen with
          | some e => rfl
          | none =>
            cases w.upload.putObject with
            | some e => rfl
            | none =>
              cases w.stat with
              | error e => rfl
              | ok n => rfl

/-- C11 (amended): in a run of `Optimize` or of `Thumbnail` in which a step fails, the
response is 500 and its text is the message naming the failed stage followed by
the text of the error of that very step, where `e` is what the world returned:
the error of the store (`GetObject`, `PutObject`), the error of ffmpeg, the error
of `io.Copy`, or, when `os.Create`, `os.Open` or `os.Stat` fails, the os error, which
prints the local path.  The text does not depend on the captured output of a
command.  A second run with the same name to download and the same outcome of
every step, whatever its options, temp directory, uuid, captured outputs, files
on disk and probes, gets the same response when the failed step is `GetObject` or
a run of ffmpeg; when it is a call of the os or the copy into the local file, it
gets the same response provided the local path is the same, and when it is
`PutObject`, provided the remote key is the same. -/
theorem Optimize_error_text_stage_and_cause (w1 w2 : OptimizeWorld) (fs1 fs2 : Files)
    (req1 req2 : OptimizeRequest) (tw1 tw2 : ThumbnailWorld) (tfs1 tfs2 : Files)
    (treq1 treq2 : ThumbnailRequest) (e : String) (videoSize : Int)
    (hne1 : req1.Filename ≠ "") (hne2 : req2.Filename ≠ "")
    (hbase : filepathBase req2.Filename = filepathBase req1.Filename)
    (hdl : w2.download = w1.download)
    (htr : w2.transcode.err = w1.transcode.err)
    (hth : w2.thumbnail.err = w1.thumbnail.err)
    (hcv : w2.convertThumbnail.err = w1.convertThumbnail.err)
    (huv : w2.uploadVideo = w1.uploadVideo) (hut : w2.uploadThumbnail = w1.uploadThumbnail)
    (hsv : w2.statVideo = w1.statVideo) (hst : w2.statThumbnail = w1.statThumbnail)
    (tne1 : treq1.Filename ≠ "") (tname : treq2.Filename = treq1.Filename)
    (tdl : tw2.download = tw1.download) (tth : tw2.thumbnail.err = tw1.thumbnail.err)
    (tup : tw2.upload = tw1.upload) (tst : tw2.stat = tw1.stat) :
      (w1.download.getObject = some e →
        (Optimize w1 fs1 (.ok req1)).response =
            .error 500
              ("failed to download \"" ++ filepathBase req1.Filename ++ "\" from S3: " ++
                ("failed to get object from S3: " ++ e)) ∧
          (Optimize w2 fs2 (.ok req2)).response =
            (Optimize w1 fs1 (.ok req1)).response) ∧
      (w1.download.getObject = none →
        w1.download.create = some e →
        (Optimize w1 fs1 (.ok req1)).response =
            .error 500
              ("failed to download \"" ++ filepathBase req1.Filename ++ "\" from S3: " ++
                ("error creating file: " ++
                  PathError "open"
                    (Optimize.inputPath w1 req1) e)) ∧
          (Optimize.inputPath w2 req2 = Optimize.inputPath w1 req1 →
            (Optimize w2 fs2 (.ok req2)).response =
              (Optimize w1 fs1 (.ok req1)).response)) ∧
      (w1.download.getObject = none →
        w1.download.create = none →
        w1.download.copy = some e →
        (Optimize w1 fs1 (.ok req1)).response =
            .error 500
              ("failed to download \"" ++ filepathBase req1.Filename ++ "\" from S3: " ++
                ("error saving file: " ++ e)) ∧
          (Optimize.inputPath w2 req2 = Optimize.inputPath w1 req1 →
            (Optimize w2 fs2 (.ok req2)).response =
              (Optimize w1 fs1 (.ok req1)).response)) ∧
      (w1.download = ⟨none, none, none⟩ →
        w1.transcode.err = some e →
        (Optimize w1 fs1 (.ok req1)).response =
            .error 500
              ("video optimization failed: " ++
                ("command " ++ "ffmpeg" ++ " failed: " ++ e)) ∧
          (Optimize w2 fs2 (.ok req2)).response =
            (Optimize w1 fs1 (.ok req1)).response) ∧
      (w1.download = ⟨none, none, none⟩ →
        w1.transcode.err = none →
        w1.thumbnail.err = some e →
        (Optimize w1 fs1 (.ok req1)).response =
            .error 500
              ("thumbnail generation failed: " ++
                ("command " ++ "ffmpeg" ++ " failed: " ++ e)) ∧
          (Optimize w2 fs2 (.ok req2)).response =
            (Optimize w1 fs1 (.ok req1)).response) ∧
      (w1.download = ⟨none, none, none⟩ →
        w1.transcode.err = none →
        w1.thumbnail.err = none →
        w1.convertThumbnail.err = some e →
        (Optimize w1 fs1 (.ok req1)).response =
            .error 500
              ("thumbnail conversion failed: " ++
                ("command " ++ "ffmpeg" ++ " failed: " ++ e)) ∧
          (Optimize w2 fs2 (.ok req2)).response =
            (Optimize w1 fs1 (.ok req1)).response) ∧
      (Optimize.toolsSucceed w1 = true →
        w1.uploadVideo.osOpen = some e →
        (Optimize w1 fs1 (.ok req1)).response =
            .error 500
              ("failed to upload video: " ++
                ("failed to open file for upload: " ++
                  PathError "open"
                    (Optimize.optimizedPath w1 req1) e)) ∧
          (Optimize.optimizedPath w2 req2 = Optimize.optimizedPath w1 req1 →
            (Optimize w2 fs2 (.ok req2)).response =
              (Optimize w1 fs1 (.ok req1)).response)) ∧
      (Optimize.toolsSucceed w1 = true →
        w1.uploadVideo.osOpen = none →
        w1.uploadVideo.putObject = some e →
        (Optimize w1 fs1 (.ok req1)).response =
            .error 500
              ("failed to upload video: " ++
                ("failed to upload file to S3: " ++ e)) ∧
          (Optimize.optimizedFileName w2 req2 = Optimize.optimizedFileName w1 req1 →
            (Optimize w2 fs2 (.ok req2)).response =
              (Optimize w1 fs1 (.ok req1)).response)) ∧
      (Optimize.toolsSucceed w1 = true →
        w1.uploadVideo = ⟨none, none⟩ →
        w1.uploadThumbnail.osOpen = some e →
        (Optimize w1 fs1 (.ok req1)).response =
            .error 500
              ("failed to upload thumbnail: " ++
                ("failed to open file for upload: " ++
                  PathError "open"
                    (Optimize.convertedThumbnailPath w1 req1) e)) ∧
          (Optimize.convertedThumbnailPath w2 req2 = Optimize.convertedThumbnailPath w1 req1 →
            (Optimize w2 fs2 (.ok req2)).response =
              (Optimize w1 fs1 (.ok req1)).response)) ∧
      (Optimize.toolsSucceed w1 = true →
        w1.uploadVideo = ⟨none, none⟩ →
        w1.uploadThumbnail.osOpen = none →
        w1.uploadThumbnail.putObject = some e →
        (Optimize w1 fs1 (.ok req1)).response =
            .error 500
              ("failed to upload thumbnail: " ++
                ("failed to upload file to S3: " ++ e)) ∧
          (Optimize.convertedThumbnailFileName w2 req2 = Optimize.convertedThumbnailFileName w1 req1 →
            (Optimize w2 fs2 (.ok req2)).response =
              (Optimize w1 fs1 (.ok req1)).response)) ∧
      (Optimize.uploadsSucceed w1 = true →
        w1.statVideo = .error e →
        (Optimize w1 fs1 (.ok req1)).response =
            .error 500
              ("failed to get video file info: " ++
                PathError "stat"
                    (Optimize.optimizedPath w1 req1) e) ∧
          (Optimize.optimizedPath w2 req2 = Optimize.optimizedPath w1 req1 →
            (Optimize w2 fs2 (.ok req2)).response =
              (Optimize w1 fs1 (.ok req1)).response)) ∧
      (Optimize.uploadsSucceed w1 = true →
        w1.statVideo = .ok videoSize →
        w1.statThumbnail = .error e →
        (Optimize w1 fs1 (.ok req1)).response =
            .error 500
              ("failed to get thumbnail file info: " ++
                PathError "stat"
                    (Optimize.convertedThumbnailPath w1 req1) e) ∧
          (Optimize.convertedThumbnailPath w2 req2 = Optimize.convertedThumbnailPath w1 req1 →
            (Optimize w2 fs2 (.ok req2)).response =
              (Optimize w1 fs1 (.ok req1)).response)) ∧
      (tw1.download.getObject = some e →
        (ThumbnailHandler tw1 tfs1 (.ok treq1)).response =
            .error 500
              ("failed to download \"" ++ treq1.Filename ++ "\" from S3: " ++
                ("failed to get object from S3: " ++ e)) ∧
          (ThumbnailHandler tw2 tfs2 (.ok treq2)).response =
            (ThumbnailHandler tw1 tfs1 (.ok treq1)).response) ∧
      (tw1.download.getObject = none →
        tw1.download.create = some e →
        (ThumbnailHandler tw1 tfs1 (.ok treq1)).response =
            .error 500
              ("failed to download \"" ++ treq1.Filename ++ "\" from S3: " ++
                ("error creating file: " ++
                  PathError "open"
                    (ThumbnailHandler.inputPath tw1 treq1) e)) ∧
          (ThumbnailHandler.inputPath tw2 treq2 = ThumbnailHandler.inputPath tw1 treq1 →
            (ThumbnailHandler tw2 tfs2 (.ok treq2)).response =
              (ThumbnailHandler tw1 tfs1 (.ok treq1)).response)) ∧
      (tw1.download.getObject = none →
        tw1.download.create = none →
        tw1.download.copy = some e →
        (ThumbnailHandler tw1 tfs1 (.ok treq1)).response =
            .error 500
              ("failed to download \"" ++ treq1.Filename ++ "\" from S3: " ++
                ("error saving file: " ++ e)) ∧
          (ThumbnailHandler.inputPath tw2 treq2 = ThumbnailHandler.inputPath tw1 treq1 →
            (ThumbnailHandler tw2 tfs2 (.ok treq2)).response =
              (ThumbnailHandler tw1 tfs1 (.ok treq1)).response)) ∧
      (tw1.download = ⟨none, none, none⟩ →
        tw1.thumbnail.err = some e →
        (ThumbnailHandler tw1 tfs1 (.ok treq1)).response =
            .error 500
              ("thumbnail generation failed: " ++
                ("command " ++ "ffmpeg" ++ " failed: " ++ e)) ∧
          (ThumbnailHandler tw2 tfs2 (.ok treq2)).response =
            (ThumbnailHandler tw1 tfs1 (.ok treq1)).response) ∧
      (ThumbnailHandler.toolSucceeds tw1 = true →
        tw1.upload.osOpen = some e →
        (ThumbnailHandler tw1 tfs1 (.ok treq1)).response =
            .error 500
              ("failed to upload thumbnail: " ++
                ("failed to open file for upload: " ++
                  PathError "open"
                    (ThumbnailHandler.thumbnailPath tw1 treq1) e)) ∧
          (ThumbnailHandler.thumbnailPath tw2 treq2 = ThumbnailHandler.thumbnailPath tw1 treq1 →
            (ThumbnailHandler tw2 tfs2 (.ok treq2)).response =
              (ThumbnailHandler tw1 tfs1 (.ok treq1)).response)) ∧
      (ThumbnailHandler.toolSucceeds tw1 = true →
        tw1.upload.osOpen = none →
        tw1.upload.putObject = some e →
        (ThumbnailHandler tw1 tfs1 (.ok treq1)).response =
            .error 500
              ("failed to upload thumbnail: " ++
                ("failed to upload file to S3: " ++ e)) ∧
          (ThumbnailHandler tw2 tfs2 (.ok treq2)).response =
            (ThumbnailHandler tw1 tfs1 (.ok treq1)).response) ∧
      (ThumbnailHandler.toolSucceeds tw1 = true →
        tw1.upload = ⟨none, none⟩ →
        tw1.stat = .error e →
        (ThumbnailHandler tw1 tfs1 (.ok treq1)).response =
            .error 500
              ("failed to get thumbnail file info: " ++
                PathError "stat"
                    (ThumbnailHandler.thumbnailPath tw1 treq1) e) ∧
          (ThumbnailHandler.thumbnailPath tw2 treq2 = ThumbnailHandler.thumbnailPath tw1 treq1 →
            (ThumbnailHandler tw2 tfs2 (.ok treq2)).response =
              (ThumbnailHandler tw1 tfs1 (.ok treq1)).response)) := by
  have tne2 : treq2.Filename ≠ "" := by rw [tname]; exact tne1
  have hO2 := Optimize.response_eq w2 fs2 req2 hne2
  have hO1 := Optimize.response_eq w1 fs1 req1 hne1
  have hT2 := ThumbnailHandler.thumbnail_response_eq tw2 tfs2 treq2 tne2
  have hT1 := ThumbnailHandler.thumbnail_response_eq tw1 tfs1 treq1 tne1
  rw [Optimize.deliver_response] at hO1 hO2
  rw [hdl, htr, hth, hcv, huv, hut, hsv, hst, hbase] at hO2
  rw [tdl, tth, tup, tst, tname] at hT2
  refine ⟨?_, ?_, ?_, ?_, ?_, ?_, ?_, ?_, ?_, ?_, ?_, ?_, ?_, ?_, ?_, ?_, ?_, ?_, ?_⟩
  · intro h0
    rw [hO1, hO2]
    constructor
    · simp [h0]
    · simp [h0]
  · intro h0 h1
    rw [hO1, hO2]
    constructor
    · simp [h0, h1]
    · intro hpath
      simp [h0, h1, hpath]
  · intro h0 h1 h2
    rw [hO1, hO2]
    constructor
    · simp [h0, h1, h2]
    · intro hpath
      simp [h0, h1, h2, hpath]
  · intro h0 h1
    rw [hO1, hO2]
    constructor
    · simp [h0, h1]
    · simp [h0, h1]
  · intro h0 h1 h2
    rw [hO1, hO2]
    constructor
    · simp [h0, h1, h2]
    · simp [h0, h1, h2]
  · intro h0 h1 h2 h3
    rw [hO1, hO2]
    constructor
    · simp [h0, h1, h2, h3]
    · simp [h0, h1, h2, h3]
  · intro h0 h1
    simp only [Optimize.uploadsSucceed, Optimize.toolsSucceed, ThumbnailHandler.toolSucceeds,
      Bool.and_eq_true, decide_eq_true_eq, Option.isNone_iff_eq_none] at h0
    rw [hO1, hO2]
    constructor
    · simp [h0, h1]
    · intro hpath
      simp [h0, h1, hpath]
  · intro h0 h1 h2
    simp only [Optimize.uploadsSucceed, Optimize.toolsSucceed, ThumbnailHandler.toolSucceeds,
      Bool.and_eq_true, decide_eq_true_eq, Option.isNone_iff_eq_none] at h0
    rw [hO1, hO2]
    constructor
    · simp [h0, h1, h2]
    · intro _
      simp [h0, h1, h2]
  · intro h0 h1 h2
    simp only [Optimize.uploadsSucceed, Optimize.toolsSucceed, ThumbnailHandler.toolSucceeds,
      Bool.and_eq_true, decide_eq_true_eq, Option.isNone_iff_eq_none] at h0
    rw [hO1, hO2]
    constructor
    · simp [h0, h1, h2]
    · intro hpath
      simp [h0, h1, h2, hpath]
  · intro h0 h1 h2 h3
    simp only [Optimize.uploadsSucceed, Optimize.toolsSucceed, ThumbnailHandler.toolSucceeds,
      Bool.and_eq_true, decide_eq_true_eq, Option.isNone_iff_eq_none] at h0
    rw [hO1, hO2]
    constructor
    · simp [h0, h1, h2, h3]
    · intro _
      simp [h0, h1, h2, h3]
  · intro h0 h1
    simp only [Optimize.uploadsSucceed, Optimize.toolsSucceed, ThumbnailHandler.toolSucceeds,
      Bool.and_eq_true, decide_eq_true_eq, Option.isNone_iff_eq_none] at h0
    rw [hO1, hO2]
    constructor
    · simp [h0, h1]
    · intro hpath
      simp [h0, h1, hpath]
  · intro h0 h1 h2
    simp only [Optimize.uploadsSucceed, Optimize.toolsSucceed, ThumbnailHandler.toolSucceeds,
      Bool.and_eq_true, decide_eq_true_eq, Option.isNone_iff_eq_none] at h0
    rw [hO1, hO2]
    constructor
    · simp [h0, h1, h2]
    · intro hpath
      simp [h0, h1, h2, hpath]
  · intro h0
    rw [hT1, hT2]
    constructor
    · simp [h0]
    · simp [h0]
  · intro h0 h1
    rw [hT1, hT2]
    constructor
    · simp [h0, h1]
    · intro hpath
      simp [h0, h1, hpath]
  · intro h0 h1 h2
    rw [hT1, hT2]
    constructor
    · simp [h0, h1, h2]
    · intro hpath
      simp [h0, h1, h2, hpath]
  · intro h0 h1
    rw [hT1, hT2]
    constructor
    · simp [h0, h1]
    · simp [h0, h1]
  · intro h0 h1
    simp only [Optimize.uploadsSucceed, Optimize.toolsSucceed, ThumbnailHandler.toolSucceeds,
      Bool.and_eq_true, decide_eq_true_eq, Option.isNone_iff_eq_none] at h0
    rw [hT1, hT2]
    constructor
    · simp [h0, h1]
    · intro hpath
      simp [h0, h1, hpath]
  · intro h0 h1 h2
    simp only [Optimize.uploadsSucceed, Optimize.toolsSucceed, ThumbnailHandler.toolSucceeds,
      Bool.and_eq_true, decide_eq_true_eq, Option.isNone_iff_eq_none] at h0
    rw [hT1, hT2]
    constructor
    · simp [h0, h1, h2]
    · simp [h0, h1, h2]
  · intro h0 h1 h2
    simp only [Optimize.uploadsSucceed, Optimize.toolsSucceed, ThumbnailHandler.toolSucceeds,
      Bool.and_eq_true, decide_eq_true_eq, Option.isNone_iff_eq_none] at h0
    rw [hT1, hT2]
    constructor
    · simp [h0, h1, h2]
    · intro hpath
      simp [h0, h1, h2, hpath]

/-- C11 (as stated, refuted): two runs of `Optimize` that differ only in the text of
the error the store returns answer with different bodies, each carrying that
text; the text of the error of ffmpeg (exit status, signal) is part of the body;
and two runs that differ only in the uuid, which enters the arguments of the
commands through the paths, answer a failed `os.Stat` with different bodies, each
printing the local path. -/
theorem Optimize_error_text_carries_cause :
    (Optimize noSuchKeyWorld [] (.ok ⟨"clip.mp4", []⟩)).response =
        .error 500 ("failed to download \"clip.mp4\" from S3: failed to get object from S3: " ++
          "NoSuchKey: The specified key does not exist. RequestID: 4C1A") ∧
      (Optimize accessDeniedWorld [] (.ok ⟨"clip.mp4", []⟩)).response =
        .error 500 ("failed to download \"clip.mp4\" from S3: failed to get object from S3: " ++
          "AccessDenied: Access Denied. HostID: r2-internal-7") ∧
      (Optimize noSuchKeyWorld [] (.ok ⟨"clip.mp4", []⟩)).response ≠
        (Optimize accessDeniedWorld [] (.ok ⟨"clip.mp4", []⟩)).response ∧
      (Optimize transcodeFailsWorld [] (.ok ⟨"clip.mp4", []⟩)).response =
        .error 500 "video optimization failed: command ffmpeg failed: exit status 1" ∧
      (Optimize transcodeKilledWorld [] (.ok ⟨"clip.mp4", []⟩)).response =
        .error 500 "video optimization failed: command ffmpeg failed: signal: killed" ∧
      (Optimize statFailsWorld [] (.ok ⟨"clip.mp4", []⟩)).response =
        .error 500 ("failed to get video file info: " ++
          "stat /tmp/clip_123e4567-e89b-42d3-a456-426614174000.webm: " ++
          "no such file or directory") ∧
      (Optimize otherStatFailsWorld [] (.ok ⟨"clip.mp4", []⟩)).response =
        .error 500 ("failed to get video file info: " ++
          "stat /tmp/clip_9b2f6c1e-0d4a-4e7b-8c3d-5a6f7e8d9c0b.webm: " ++
          "no such file or directory") ∧
      (Optimize statFailsWorld [] (.ok ⟨"clip.mp4", []⟩)).response ≠
        (Optimize otherStatFailsWorld [] (.ok ⟨"clip.mp4", []⟩)).response := by
  refine ⟨by decide, by decide, by decide, by decide, by decide, by decide, by decide,
    by decide⟩

/-- C11 (amended), for two runs in which ffmpeg exits with status 1: the second has
a directory in the source key, other options (so other command arguments),
another temp directory, another uuid and no captured output, and gets the same
response, which names the stage and carries the exit status. -/
theorem Optimize_error_text_stage_and_cause_exit_status :
    (Optimize transcodeFailsWorld [] (.ok ⟨"clip.mp4", []⟩)).response =
        .error 500 "video optimization failed: command ffmpeg failed: exit status 1" ∧
      (Optimize transcodeFailsQuietWorld ["/var/tmp/old.bin"]
        (.ok ⟨"videos/clip.mp4", [("resolution", "720p"), ("format", "mp4")]⟩)).response =
        (Optimize transcodeFailsWorld [] (.ok ⟨"clip.mp4", []⟩)).response ∧
      (ThumbnailHandler extractFailsThumbnailWorld [] (.ok ⟨"clip.mp4"⟩)).response =
        .error 500 "thumbnail generation failed: command ffmpeg failed: exit status 1" ∧
      (ThumbnailHandler extractFailsQuietThumbnailWorld ["/var/tmp/old.bin"]
        (.ok ⟨"clip.mp4"⟩)).response =
        (ThumbnailHandler extractFailsThumbnailWorld [] (.ok ⟨"clip.mp4"⟩)).response := by
  obtain ⟨_, _, _, h4, _, _, _, _, _, _, _, _, _, _, _, t4, _, _, _⟩ :=
    Optimize_error_text_stage_and_cause
      transcodeFailsWorld transcodeFailsQuietWorld [] ["/var/tmp/old.bin"]
      ⟨"clip.mp4", []⟩ ⟨"videos/clip.mp4", [("resolution", "720p"), ("format", "mp4")]⟩
      extractFailsThumbnailWorld extractFailsQuietThumbnailWorld [] ["/var/tmp/old.bin"]
      ⟨"clip.mp4"⟩ ⟨"clip.mp4"⟩ "exit status 1" 0
      (by decide) (by decide) (by decide) (by decide) (by decide) (by decide) (by decide)
      (by decide) (by decide) rfl rfl
      (by decide) (by decide) (by decide) (by decide) (by decide) rfl
  obtain ⟨h4a, h4b⟩ := h4 (by decide) (by decide)
  obtain ⟨t4a, t4b⟩ := t4 (by decide) (by decide)
  exact ⟨h4a, h4b, t4a, t4b⟩


end VideoOptimization
